import Mathlib

/-!
Shallow embedding of the NFC chip-identification app (detectors, codec,
identity tables, orchestrator and product matcher) together with proofs of
the specified properties.  Each definition mirrors one TypeScript function
or constant of the repository; machine bytes are modelled as `Nat`, JS
`undefined` as `Option`, thrown exceptions as `Except`.
-/

namespace NfcId

/-- Detection confidence level, the `'high' | 'medium' | 'low'` union used
throughout the detectors and the orchestrator. -/
inductive Confidence where
  | low
  | medium
  | high
deriving DecidableEq, Repr

/-- Numeric rank of a confidence level, used to state confidence-ordering
properties (low < medium < high). -/
def Confidence.rank : Confidence → Nat
  | .low => 0
  | .medium => 1
  | .high => 2

/-- Platform the detection runs on (`Platform.OS` in React Native). -/
inductive Platform where
  | ios
  | android
deriving DecidableEq, Repr

/-- The `ChipType` enumeration of `types/detection.ts`: every concrete chip
identity the app can report. -/
inductive ChipType where
  | NTAG213
  | NTAG215
  | NTAG216
  | NTAG_I2C_1K
  | NTAG_I2C_2K
  | NTAG_I2C_PLUS_1K
  | NTAG_I2C_PLUS_2K
  | NTAG5_LINK
  | NTAG5_BOOST
  | NTAG5_SWITCH
  | NTAG413_DNA
  | NTAG424_DNA
  | NTAG424_DNA_TT
  | NTAG_UNKNOWN
  | MIFARE_CLASSIC_1K
  | MIFARE_CLASSIC_4K
  | MIFARE_CLASSIC_MINI
  | DESFIRE_EV1
  | DESFIRE_EV2
  | DESFIRE_EV3
  | DESFIRE_LIGHT
  | DESFIRE_UNKNOWN
  | MIFARE_PLUS_S
  | MIFARE_PLUS_X
  | MIFARE_PLUS_SE
  | MIFARE_PLUS_EV1
  | MIFARE_PLUS
  | ULTRALIGHT
  | ULTRALIGHT_C
  | ULTRALIGHT_EV1
  | ULTRALIGHT_NANO
  | ULTRALIGHT_AES
  | SLIX
  | SLIX2
  | SLIX_S
  | SLIX_L
  | ICODE_DNA
  | ISO15693_UNKNOWN
  | JCOP4
  | JAVACARD_UNKNOWN
  | ISO14443A_UNKNOWN
  | ISO14443B_UNKNOWN
  | UNKNOWN
deriving DecidableEq, Repr

/-- String value of each `ChipType` member (the TS enum is string-valued and
`getChipFamily` dispatches on string prefixes of this value). -/
def ChipType.str : ChipType → String
  | .NTAG213 => "NTAG213"
  | .NTAG215 => "NTAG215"
  | .NTAG216 => "NTAG216"
  | .NTAG_I2C_1K => "NTAG_I2C_1K"
  | .NTAG_I2C_2K => "NTAG_I2C_2K"
  | .NTAG_I2C_PLUS_1K => "NTAG_I2C_PLUS_1K"
  | .NTAG_I2C_PLUS_2K => "NTAG_I2C_PLUS_2K"
  | .NTAG5_LINK => "NTAG5_LINK"
  | .NTAG5_BOOST => "NTAG5_BOOST"
  | .NTAG5_SWITCH => "NTAG5_SWITCH"
  | .NTAG413_DNA => "NTAG413_DNA"
  | .NTAG424_DNA => "NTAG424_DNA"
  | .NTAG424_DNA_TT => "NTAG424_DNA_TT"
  | .NTAG_UNKNOWN => "NTAG_UNKNOWN"
  | .MIFARE_CLASSIC_1K => "MIFARE_CLASSIC_1K"
  | .MIFARE_CLASSIC_4K => "MIFARE_CLASSIC_4K"
  | .MIFARE_CLASSIC_MINI => "MIFARE_CLASSIC_MINI"
  | .DESFIRE_EV1 => "DESFIRE_EV1"
  | .DESFIRE_EV2 => "DESFIRE_EV2"
  | .DESFIRE_EV3 => "DESFIRE_EV3"
  | .DESFIRE_LIGHT => "DESFIRE_LIGHT"
  | .DESFIRE_UNKNOWN => "DESFIRE_UNKNOWN"
  | .MIFARE_PLUS_S => "MIFARE_PLUS_S"
  | .MIFARE_PLUS_X => "MIFARE_PLUS_X"
  | .MIFARE_PLUS_SE => "MIFARE_PLUS_SE"
  | .MIFARE_PLUS_EV1 => "MIFARE_PLUS_EV1"
  | .MIFARE_PLUS => "MIFARE_PLUS"
  | .ULTRALIGHT => "ULTRALIGHT"
  | .ULTRALIGHT_C => "ULTRALIGHT_C"
  | .ULTRALIGHT_EV1 => "ULTRALIGHT_EV1"
  | .ULTRALIGHT_NANO => "ULTRALIGHT_NANO"
  | .ULTRALIGHT_AES => "ULTRALIGHT_AES"
  | .SLIX => "SLIX"
  | .SLIX2 => "SLIX2"
  | .SLIX_S => "SLIX_S"
  | .SLIX_L => "SLIX_L"
  | .ICODE_DNA => "ICODE_DNA"
  | .ISO15693_UNKNOWN => "ISO15693_UNKNOWN"
  | .JCOP4 => "JCOP4"
  | .JAVACARD_UNKNOWN => "JAVACARD_UNKNOWN"
  | .ISO14443A_UNKNOWN => "ISO14443A_UNKNOWN"
  | .ISO14443B_UNKNOWN => "ISO14443B_UNKNOWN"
  | .UNKNOWN => "UNKNOWN"

/-- The `ChipFamily` enumeration of `types/detection.ts`. -/
inductive ChipFamily where
  | NTAG
  | MIFARE_CLASSIC
  | MIFARE_DESFIRE
  | MIFARE_PLUS
  | ISO15693
  | JAVACARD
  | UNKNOWN
deriving DecidableEq, Repr

/-- JS `s.startsWith(pre)`: prefix test over the character lists (the
built-in `String.startsWith` does not reduce inside the kernel). -/
def strStartsWith (s pre : String) : Bool :=
  pre.toList.isPrefixOf s.toList

/-- The `getChipFamily` function of `types/detection.ts`: a chain of
`startsWith` tests on the string value of the chip type, with the NTAG5
check deliberately placed before the generic NTAG check. -/
def getChipFamily (type : ChipType) : ChipFamily :=
  if strStartsWith type.str "NTAG5" then ChipFamily.ISO15693
  else if strStartsWith type.str "NTAG" then ChipFamily.NTAG
  else if strStartsWith type.str "ULTRALIGHT" then ChipFamily.NTAG
  else if strStartsWith type.str "MIFARE_CLASSIC" then ChipFamily.MIFARE_CLASSIC
  else if strStartsWith type.str "DESFIRE" then ChipFamily.MIFARE_DESFIRE
  else if strStartsWith type.str "MIFARE_PLUS" then ChipFamily.MIFARE_PLUS
  else if strStartsWith type.str "SLIX" || strStartsWith type.str "ICODE"
      || strStartsWith type.str "ISO15693" then ChipFamily.ISO15693
  else if strStartsWith type.str "JCOP" || strStartsWith type.str "JAVACARD" then
    ChipFamily.JAVACARD
  else ChipFamily.UNKNOWN

/-- Expected identity-to-family table written directly from the data model
described in the specification (each identity belongs to exactly one family,
NTAG5 and ICODE/SLIX chips to ISO15693, Ultralight to the NTAG/Type-2
family).  Used to check that the prefix dispatch of `getChipFamily` is
unambiguous. -/
def chipFamilySpec : ChipType → ChipFamily
  | .NTAG213 | .NTAG215 | .NTAG216 => ChipFamily.NTAG
  | .NTAG_I2C_1K | .NTAG_I2C_2K | .NTAG_I2C_PLUS_1K | .NTAG_I2C_PLUS_2K =>
      ChipFamily.NTAG
  | .NTAG5_LINK | .NTAG5_BOOST | .NTAG5_SWITCH => ChipFamily.ISO15693
  | .NTAG413_DNA | .NTAG424_DNA | .NTAG424_DNA_TT => ChipFamily.NTAG
  | .NTAG_UNKNOWN => ChipFamily.NTAG
  | .MIFARE_CLASSIC_1K | .MIFARE_CLASSIC_4K | .MIFARE_CLASSIC_MINI =>
      ChipFamily.MIFARE_CLASSIC
  | .DESFIRE_EV1 | .DESFIRE_EV2 | .DESFIRE_EV3 | .DESFIRE_LIGHT
  | .DESFIRE_UNKNOWN => ChipFamily.MIFARE_DESFIRE
  | .MIFARE_PLUS_S | .MIFARE_PLUS_X | .MIFARE_PLUS_SE | .MIFARE_PLUS_EV1
  | .MIFARE_PLUS => ChipFamily.MIFARE_PLUS
  | .ULTRALIGHT | .ULTRALIGHT_C | .ULTRALIGHT_EV1 | .ULTRALIGHT_NANO
  | .ULTRALIGHT_AES => ChipFamily.NTAG
  | .SLIX | .SLIX2 | .SLIX_S | .SLIX_L | .ICODE_DNA => ChipFamily.ISO15693
  | .ISO15693_UNKNOWN => ChipFamily.ISO15693
  | .JCOP4 | .JAVACARD_UNKNOWN => ChipFamily.JAVACARD
  | .ISO14443A_UNKNOWN | .ISO14443B_UNKNOWN | .UNKNOWN => ChipFamily.UNKNOWN

/-- The `CHIP_NAMES` table of `types/detection.ts`: human-readable names. -/
def CHIP_NAMES : ChipType → String
  | .NTAG213 => "NTAG213"
  | .NTAG215 => "NTAG215"
  | .NTAG216 => "NTAG216"
  | .NTAG_I2C_1K => "NTAG I2C 1K"
  | .NTAG_I2C_2K => "NTAG I2C 2K"
  | .NTAG_I2C_PLUS_1K => "NTAG I2C Plus 1K"
  | .NTAG_I2C_PLUS_2K => "NTAG I2C Plus 2K"
  | .NTAG5_LINK => "NTAG 5 link"
  | .NTAG5_BOOST => "NTAG 5 boost"
  | .NTAG5_SWITCH => "NTAG 5 switch"
  | .NTAG413_DNA => "NTAG 413 DNA"
  | .NTAG424_DNA => "NTAG 424 DNA"
  | .NTAG424_DNA_TT => "NTAG 424 DNA TagTamper"
  | .NTAG_UNKNOWN => "NTAG (Unknown variant)"
  | .MIFARE_CLASSIC_1K => "MIFARE Classic 1K"
  | .MIFARE_CLASSIC_4K => "MIFARE Classic 4K"
  | .MIFARE_CLASSIC_MINI => "MIFARE Classic Mini"
  | .DESFIRE_EV1 => "MIFARE DESFire EV1"
  | .DESFIRE_EV2 => "MIFARE DESFire EV2"
  | .DESFIRE_EV3 => "MIFARE DESFire EV3"
  | .DESFIRE_LIGHT => "MIFARE DESFire Light"
  | .DESFIRE_UNKNOWN => "MIFARE DESFire (Unknown version)"
  | .MIFARE_PLUS_S => "MIFARE Plus S"
  | .MIFARE_PLUS_X => "MIFARE Plus X"
  | .MIFARE_PLUS_SE => "MIFARE Plus SE"
  | .MIFARE_PLUS_EV1 => "MIFARE Plus EV1"
  | .MIFARE_PLUS => "MIFARE Plus"
  | .ULTRALIGHT => "MIFARE Ultralight"
  | .ULTRALIGHT_C => "MIFARE Ultralight C"
  | .ULTRALIGHT_EV1 => "MIFARE Ultralight EV1"
  | .ULTRALIGHT_NANO => "MIFARE Ultralight Nano"
  | .ULTRALIGHT_AES => "MIFARE Ultralight AES"
  | .SLIX => "ICODE SLIX"
  | .SLIX2 => "ICODE SLIX2"
  | .SLIX_S => "ICODE SLIX-S"
  | .SLIX_L => "ICODE SLIX-L"
  | .ICODE_DNA => "ICODE DNA"
  | .ISO15693_UNKNOWN => "ISO 15693 Tag"
  | .JCOP4 => "JCOP4 (J3R180)"
  | .JAVACARD_UNKNOWN => "JavaCard"
  | .ISO14443A_UNKNOWN => "ISO 14443-A Tag"
  | .ISO14443B_UNKNOWN => "ISO 14443-B Tag"
  | .UNKNOWN => "Unknown NFC Tag"

/-- The `CHIP_MEMORY_SIZES` partial record of `types/detection.ts`; entries
missing from the TS record are `none`. -/
def CHIP_MEMORY_SIZES : ChipType → Option Nat
  | .NTAG213 => some 144
  | .NTAG215 => some 504
  | .NTAG216 => some 888
  | .NTAG_I2C_1K => some 888
  | .NTAG_I2C_2K => some 1912
  | .NTAG_I2C_PLUS_1K => some 888
  | .NTAG_I2C_PLUS_2K => some 1912
  | .NTAG5_LINK => some 496
  | .NTAG5_BOOST => some 2000
  | .NTAG5_SWITCH => some 256
  | .NTAG413_DNA => some 160
  | .NTAG424_DNA => some 416
  | .NTAG424_DNA_TT => some 416
  | .MIFARE_CLASSIC_1K => some 1024
  | .MIFARE_CLASSIC_4K => some 4096
  | .MIFARE_CLASSIC_MINI => some 320
  | .ULTRALIGHT => some 48
  | .ULTRALIGHT_C => some 144
  | .ULTRALIGHT_EV1 => some 128
  | .ULTRALIGHT_NANO => some 48
  | .ULTRALIGHT_AES => some 540
  | _ => none

/-- Cloneability verdict entry: the `{cloneable, note?}` record stored in
`CHIP_CLONEABILITY`. -/
structure CloneInfo where
  cloneable : Bool
  note : Option String := none
deriving DecidableEq, Repr

/-- The static `CHIP_CLONEABILITY` table of `types/detection.ts`. -/
def CHIP_CLONEABILITY : ChipType → CloneInfo
  | .NTAG213 => { cloneable := true }
  | .NTAG215 => { cloneable := true }
  | .NTAG216 => { cloneable := true }
  | .NTAG_I2C_1K => { cloneable := true, note := some "I2C interface not cloneable" }
  | .NTAG_I2C_2K => { cloneable := true, note := some "I2C interface not cloneable" }
  | .NTAG_I2C_PLUS_1K => { cloneable := true, note := some "I2C interface not cloneable" }
  | .NTAG_I2C_PLUS_2K => { cloneable := true, note := some "I2C interface not cloneable" }
  | .NTAG5_LINK =>
      { cloneable := false
        note := some "Password and AES mutual authentication protect data access" }
  | .NTAG5_BOOST =>
      { cloneable := false
        note := some "Password and AES mutual authentication protect data access" }
  | .NTAG5_SWITCH =>
      { cloneable := false
        note := some "Password and AES mutual authentication protect data access" }
  | .NTAG413_DNA =>
      { cloneable := false
        note := some "AES-128 authentication and SUN messaging prevent cloning" }
  | .NTAG424_DNA =>
      { cloneable := false
        note := some "AES-128 authentication and SUN messaging prevent cloning" }
  | .NTAG424_DNA_TT =>
      { cloneable := false
        note := some "AES-128 authentication and tamper detection prevent cloning" }
  | .NTAG_UNKNOWN => { cloneable := true, note := some "May require verification" }
  | .MIFARE_CLASSIC_1K =>
      { cloneable := true
        note := some "Requires key knowledge; Android only for sector operations" }
  | .MIFARE_CLASSIC_4K =>
      { cloneable := true
        note := some "Requires key knowledge; Android only for sector operations" }
  | .MIFARE_CLASSIC_MINI =>
      { cloneable := true
        note := some "Requires key knowledge; Android only for sector operations" }
  | .DESFIRE_EV1 =>
      { cloneable := false, note := some "Cryptographic protection prevents cloning" }
  | .DESFIRE_EV2 =>
      { cloneable := false, note := some "Cryptographic protection prevents cloning" }
  | .DESFIRE_EV3 =>
      { cloneable := false, note := some "Cryptographic protection prevents cloning" }
  | .DESFIRE_LIGHT =>
      { cloneable := false, note := some "Cryptographic protection prevents cloning" }
  | .DESFIRE_UNKNOWN =>
      { cloneable := false, note := some "Cryptographic protection prevents cloning" }
  | .MIFARE_PLUS_S =>
      { cloneable := false, note := some "AES cryptographic protection prevents cloning" }
  | .MIFARE_PLUS_X =>
      { cloneable := false, note := some "AES cryptographic protection prevents cloning" }
  | .MIFARE_PLUS_SE =>
      { cloneable := false, note := some "AES cryptographic protection prevents cloning" }
  | .MIFARE_PLUS_EV1 =>
      { cloneable := false, note := some "AES cryptographic protection prevents cloning" }
  | .MIFARE_PLUS =>
      { cloneable := false, note := some "AES cryptographic protection prevents cloning" }
  | .ULTRALIGHT => { cloneable := true }
  | .ULTRALIGHT_C =>
      { cloneable := true, note := some "3DES protection may require key knowledge" }
  | .ULTRALIGHT_EV1 => { cloneable := true }
  | .ULTRALIGHT_NANO => { cloneable := true }
  | .ULTRALIGHT_AES =>
      { cloneable := false, note := some "AES authentication prevents cloning without keys" }
  | .SLIX => { cloneable := true }
  | .SLIX2 => { cloneable := true }
  | .SLIX_S => { cloneable := true }
  | .SLIX_L => { cloneable := true }
  | .ICODE_DNA =>
      { cloneable := false, note := some "Cryptographic authentication prevents cloning" }
  | .ISO15693_UNKNOWN => { cloneable := true, note := some "May require verification" }
  | .JCOP4 => { cloneable := false, note := some "Secure element prevents cloning" }
  | .JAVACARD_UNKNOWN => { cloneable := false, note := some "Secure element prevents cloning" }
  | .ISO14443A_UNKNOWN =>
      { cloneable := false, note := some "Unknown chip - cannot determine cloneability" }
  | .ISO14443B_UNKNOWN =>
      { cloneable := false, note := some "Unknown chip - cannot determine cloneability" }
  | .UNKNOWN =>
      { cloneable := false, note := some "Unknown chip - cannot determine cloneability" }

/-- The `ApduResponse` record of `services/nfc/commands.ts`. -/
structure ApduResponse where
  data : List Nat
  sw1 : Nat
  sw2 : Nat
  isSuccess : Bool
deriving DecidableEq, Repr

/-- The `parseApduResponse` function of `services/nfc/commands.ts`: split a
raw response into payload and the two trailing status bytes; responses
shorter than two bytes yield the fixed failure value. -/
def parseApduResponse (response : List Nat) : ApduResponse :=
  if response.length < 2 then
    { data := [], sw1 := 0, sw2 := 0, isSuccess := false }
  else
    let sw1 := response.getD (response.length - 2) 0
    let sw2 := response.getD (response.length - 1) 0
    let data := response.take (response.length - 2)
    { data := data, sw1 := sw1, sw2 := sw2
      isSuccess := sw1 == 0x90 || sw1 == 0x91 }

/-- DESFire `GET_VERSION` hardware version info (`DesfireVersionInfo` in
`types/detection.ts`). -/
structure DesfireVersionInfo where
  hardwareMajor : Nat
  hardwareMinor : Nat
  hardwareStorageSize : Nat
  softwareMajor : Nat
  softwareMinor : Nat
deriving DecidableEq, Repr

/-- The `DESFIRE_VERSION_MAP` table of the DESFire detector: hardware major
version byte to chip type, `none` for bytes absent from the record. -/
def DESFIRE_VERSION_MAP (hwMajor : Nat) : Option ChipType :=
  if hwMajor = 0x00 ∨ hwMajor = 0x01 then some ChipType.DESFIRE_EV1
  else if hwMajor = 0x10 ∨ hwMajor = 0x11 ∨ hwMajor = 0x12 ∨ hwMajor = 0x20
      ∨ hwMajor = 0x21 ∨ hwMajor = 0x22 then some ChipType.DESFIRE_EV2
  else if hwMajor = 0x30 ∨ hwMajor = 0x31 ∨ hwMajor = 0x32 ∨ hwMajor = 0x33
      ∨ hwMajor = 0x34 ∨ hwMajor = 0x35 ∨ hwMajor = 0x36 then
    some ChipType.DESFIRE_EV3
  else none

/-- The `DESFIRE_STORAGE_SIZES` table of the DESFire detector: storage-size
byte to capacity in bytes. -/
def DESFIRE_STORAGE_SIZES : Nat → Option Nat
  | 0x10 => some 256
  | 0x12 => some 512
  | 0x13 => some 888
  | 0x14 => some 1024
  | 0x15 => some 1912
  | 0x16 => some 2048
  | 0x18 => some 4096
  | 0x1a => some 8192
  | 0x1c => some 16384
  | 0x1e => some 32768
  | _ => none

/-- Chip-type selection of the DESFire detector (`detectDesfire`), as a
function of the `GET_VERSION` first-frame product type, subtype, hardware
major version and storage-size bytes.  `PRODUCT_TYPES` is
`{DESFIRE = 0x01, NTAG_DNA = 0x04, NTAG_I2C = 0x05, DESFIRE_LIGHT = 0x08}`
and `NTAG_DNA_SUBTYPES` is `{NTAG413_DNA = 0x02, NTAG424_DNA_TT = 0x04,
NTAG424_DNA = 0x05}`; an unknown DNA subtype falls back to NTAG 424 DNA. -/
def desfireChipType (hwProductType hwSubtype hwMajor hwStorageSize : Nat) :
    ChipType :=
  if hwProductType == 0x04 then
    -- NTAG DNA family: selection is by subtype only
    if hwSubtype == 0x02 then ChipType.NTAG413_DNA
    else if hwSubtype == 0x04 then ChipType.NTAG424_DNA_TT
    else if hwSubtype == 0x05 then ChipType.NTAG424_DNA
    else ChipType.NTAG424_DNA
  else if hwProductType == 0x05 then
    -- NTAG I2C family: storage size picks 1K vs 2K, subtype 0x02 marks Plus
    let isPlus := hwSubtype == 0x02
    if hwStorageSize == 0x13 then
      if isPlus then ChipType.NTAG_I2C_PLUS_1K else ChipType.NTAG_I2C_1K
    else if hwStorageSize == 0x15 then
      if isPlus then ChipType.NTAG_I2C_PLUS_2K else ChipType.NTAG_I2C_2K
    else ChipType.NTAG_UNKNOWN
  else if hwProductType == 0x08 then ChipType.DESFIRE_LIGHT
  else if hwProductType == 0x01 then
    match DESFIRE_VERSION_MAP hwMajor with
    | some t => t
    | none =>
        -- numeric-range inference fallback for unrecognized major bytes
        if hwMajor ≤ 0x01 then ChipType.DESFIRE_EV1
        else if 0x10 ≤ hwMajor ∧ hwMajor < 0x30 then ChipType.DESFIRE_EV2
        else if 0x30 ≤ hwMajor then ChipType.DESFIRE_EV3
        else ChipType.DESFIRE_UNKNOWN
  else ChipType.DESFIRE_UNKNOWN

/-- Result record of the DESFire detector (`DesfireDetectionResult`).  Error
message strings are tracked only as presence (`Option Unit`-like flag kept
as `Option String` with the codepath name) since no claim depends on their
exact text. -/
structure DesfireDetectionResult where
  success : Bool
  chipType : Option ChipType := none
  versionInfo : Option DesfireVersionInfo := none
  storageSize : Option Nat := none
  error : Option String := none
deriving DecidableEq, Repr

/-- Pure core of `detectDesfire`: processing of the transport responses to
`GET_VERSION` (first frame) and the optional continuation frame.  `response2
= none` models a failed or skipped continuation exchange (its exception is
caught and software versions default to 0). -/
def detectDesfirePure (response1 : List Nat) (response2 : Option (List Nat)) :
    DesfireDetectionResult :=
  let parsed1 := parseApduResponse response1
  if ¬parsed1.isSuccess ∧ parsed1.sw1 ≠ 0xaf then
    { success := false, error := some "GET_VERSION failed" }
  else if parsed1.data.length < 7 then
    { success := false, error := some "Invalid GET_VERSION response length" }
  else
    let hwVendorId := parsed1.data.getD 0 0
    let hwProductType := parsed1.data.getD 1 0
    let hwSubtype := parsed1.data.getD 2 0
    let hwMajor := parsed1.data.getD 3 0
    let hwMinor := parsed1.data.getD 4 0
    let hwStorageSize := parsed1.data.getD 5 0
    if hwVendorId ≠ 0x04 then
      { success := true, chipType := some ChipType.DESFIRE_UNKNOWN
        error := some "Non-NXP vendor" }
    else
      let swVersions : Nat × Nat :=
        if parsed1.sw1 == 0xaf || parsed1.sw2 == 0xaf then
          match response2 with
          | some r2 =>
              let parsed2 := parseApduResponse r2
              if parsed2.data.length ≥ 7 then
                (parsed2.data.getD 3 0, parsed2.data.getD 4 0)
              else (0, 0)
          | none => (0, 0)
        else (0, 0)
      { success := true
        chipType := some (desfireChipType hwProductType hwSubtype hwMajor hwStorageSize)
        versionInfo := some
          { hardwareMajor := hwMajor, hardwareMinor := hwMinor
            hardwareStorageSize := hwStorageSize
            softwareMajor := swVersions.1, softwareMinor := swVersions.2 }
        storageSize := DESFIRE_STORAGE_SIZES hwStorageSize }

/-- Confidence the orchestrator assigns to a successful DESFire detection
(the ternary in step 3a of `detectChip`): Medium for `DESFIRE_UNKNOWN`,
High otherwise. -/
def desfireResultConfidence (t : ChipType) : Confidence :=
  if t = ChipType.DESFIRE_UNKNOWN then Confidence.medium else Confidence.high

/-- Result record of the MIFARE Classic detector
(`MifareClassicDetectionResult`). -/
structure MifareClassicDetectionResult where
  success : Bool
  chipType : Option ChipType := none
  memorySize : Option Nat := none
  sectorCount : Option Nat := none
  blockCount : Option Nat := none
  note : Option String := none
deriving DecidableEq, Repr

/-- SAK values recognized as MIFARE Classic 1K (`ALL_CLASSIC_1K_SAKS`). -/
def ALL_CLASSIC_1K_SAKS : List Nat := [0x08, 0x28, 0x88, 0x01]

/-- SAK values recognized as MIFARE Classic 4K (`ALL_CLASSIC_4K_SAKS`);
Classic 2K (0x19) is treated as a 4K variant. -/
def ALL_CLASSIC_4K_SAKS : List Nat := [0x18, 0x38, 0x98, 0x19]

/-- The `detectMifareClassic` function of the MIFARE detector: pure mapping
from a SAK value to a Classic variant; the per-platform note mirrors the
`Platform.OS` ternary. -/
def detectMifareClassic (platform : Platform) (sak : Nat) :
    MifareClassicDetectionResult :=
  if ALL_CLASSIC_1K_SAKS.contains sak then
    { success := true
      chipType := some ChipType.MIFARE_CLASSIC_1K
      memorySize := CHIP_MEMORY_SIZES ChipType.MIFARE_CLASSIC_1K
      sectorCount := some 16
      blockCount := some 64
      note := if platform = Platform.ios
        then some "Sector operations require Android" else none }
  else if ALL_CLASSIC_4K_SAKS.contains sak then
    { success := true
      chipType := some ChipType.MIFARE_CLASSIC_4K
      memorySize := CHIP_MEMORY_SIZES ChipType.MIFARE_CLASSIC_4K
      sectorCount := some 40
      blockCount := some 256
      note := if platform = Platform.ios
        then some "Sector operations require Android" else none }
  else if sak == 0x09 then
    { success := true
      chipType := some ChipType.MIFARE_CLASSIC_MINI
      memorySize := CHIP_MEMORY_SIZES ChipType.MIFARE_CLASSIC_MINI
      sectorCount := some 5
      blockCount := some 20
      note := if platform = Platform.ios
        then some "Sector operations require Android" else none }
  else
    { success := false }

/-- The `isMifareClassicSak` predicate of the MIFARE detector. -/
def isMifareClassicSak (sak : Nat) : Bool :=
  ALL_CLASSIC_1K_SAKS.contains sak || ALL_CLASSIC_4K_SAKS.contains sak
    || sak == 0x09

/-- The `hasIsoDepCapability` predicate: bit 5 (0x20) of SAK indicates
ISO 14443-4 compliance. -/
def hasIsoDepCapability (sak : Nat) : Bool :=
  sak &&& 0x20 ≠ 0

/-- Contiguous-sublist test over character lists, used to model the JS
substring test `s.includes(pat)`. -/
def containsSub : List Char → List Char → Bool
  | [], pat => pat.isEmpty
  | c :: tail, pat => pat.isPrefixOf (c :: tail) || containsSub tail pat

/-- JS substring test `s.includes(pat)`. -/
def strIncludes (s pat : String) : Bool :=
  containsSub s.toList pat.toList

/-- JS `s.toUpperCase()` over the character list (ASCII-faithful). -/
def strToUpper (s : String) : String :=
  String.mk (s.toList.map Char.toUpper)

/-- JS `s.replaceAll(":", "")`: drop every colon. -/
def removeColons (s : String) : String :=
  String.mk (s.toList.filter (fun c => !(c == ':')))

/-- JS truthiness of an optional string: `undefined` and the empty string
are falsy. -/
def strTruthy : Option String → Bool
  | none => false
  | some s => s ≠ ""

/-- JS `a || b || ''` over two optional strings. -/
def orElseStr (a b : Option String) : String :=
  if strTruthy a then a.getD "" else if strTruthy b then b.getD "" else ""

/-- SAK-swap category (`swapType` union of the SAK-swap analyzer). -/
inductive SakSwapType where
  | mifare_plus_sl1
  | desfire_with_classic
  | magic_card
  | unknown
deriving DecidableEq, Repr

/-- Result record of the SAK-swap analyzer (`SakSwapDetection`). -/
structure SakSwapDetection where
  hasSakSwap : Bool
  swapType : Option SakSwapType := none
  confidence : Confidence
  description : String
  notes : Option (List String) := none
deriving DecidableEq, Repr

/-- The `detectSakSwap` analyzer of the MIFARE detector: flags SAK/ATQA/ATS
combinations that suggest a multi-mode or magic card.  Pure function of the
SAK byte plus optional ATQA and historical-bytes strings. -/
def detectSakSwap (sak : Nat) (atqa historicalBytes : Option String) :
    SakSwapDetection :=
  let hb := historicalBytes.getD ""
  if (sak == 0x08 || sak == 0x18) && strTruthy historicalBytes
      && (strIncludes hb "C1" || strIncludes hb "80:02") then
    { hasSakSwap := true
      swapType := some SakSwapType.mifare_plus_sl1
      confidence := Confidence.medium
      description := "MIFARE Plus in Security Level 1 (emulating Classic). Can be switched to SL2/SL3 with cryptographic authentication."
      notes := some ["Historical bytes suggest MIFARE Plus in SL1 mode"] }
  else if sak == 0x28 then
    { hasSakSwap := true
      swapType := some SakSwapType.desfire_with_classic
      confidence := Confidence.high
      description := "DESFire with MIFARE Classic emulation. Tag operates as both DESFire and Classic."
      notes := some ["Full DESFire functionality available via ISO-DEP"] }
  else
    let cleanAtqa := strToUpper (atqa.getD "")
    if strTruthy atqa && cleanAtqa == "04:00" && (sak == 0x08 || sak == 0x18) then
      { hasSakSwap := true
        swapType := some SakSwapType.magic_card
        confidence := Confidence.medium
        description := "Possible Gen1a magic card (UID-writable). SAK and UID can be modified with special commands."
        notes := some ["ATQA pattern suggests Gen1a magic card"] }
    else if strTruthy atqa
        && ((sak == 0x08 && cleanAtqa == "00:02")
          || (sak == 0x18 && cleanAtqa == "00:04")) then
      { hasSakSwap := true
        swapType := some SakSwapType.magic_card
        confidence := Confidence.low
        description := "SAK and ATQA values are inconsistent. May be a magic/clone card with modified parameters."
        notes := some ["SAK/ATQA mismatch suggests modified or clone card"] }
    else if sak == 0x10 || sak == 0x11 then
      { hasSakSwap := true
        swapType := some SakSwapType.mifare_plus_sl1
        confidence := Confidence.high
        description := "MIFARE Plus in Security Level 2. Supports both Classic commands and AES authentication."
        notes := some ["Can fall back to SL1 (Classic) mode in some configurations"] }
    else if sak == 0x20 && strTruthy historicalBytes && strIncludes hb "C1" then
      { hasSakSwap := true
        swapType := some SakSwapType.mifare_plus_sl1
        confidence := Confidence.medium
        description := "MIFARE Plus in Security Level 3 (AES-only mode). May have originated from SL1 configuration."
        notes := some ["Cannot fall back to Classic mode once in SL3"] }
    else
      { hasSakSwap := false
        confidence := Confidence.high
        description := "Standard tag with no SAK swap capability detected." }

/-- The `mightBeNtag` predicate of the NTAG detector: SAK absent or 0x00,
NfcA present, IsoDep absent. -/
def mightBeNtag (sak : Option Nat) (techTypes : Option (List String)) : Bool :=
  if sak.isSome && sak ≠ some 0x00 then false
  else if techTypes.isSome
      && !(techTypes.getD []).any (fun t => strIncludes t "NfcA") then false
  else if techTypes.isSome
      && (techTypes.getD []).any (fun t => strIncludes t "IsoDep") then false
  else true

/-- The `isIso15693` predicate of the ISO 15693 detector. -/
def isIso15693 (techTypes : List String) : Bool :=
  techTypes.any (fun t =>
    strIncludes t "NfcV" || strIncludes t "ISO15693" || strIncludes t "Iso15693")

/-- The `mightBeJavaCard` predicate of the JavaCard detector: JCOP or
SmartMX signatures in historical bytes or ATS, or an ATS starting with
0x78. -/
def mightBeJavaCard (historicalBytes ats : Option String) : Bool :=
  if ¬strTruthy historicalBytes ∧ ¬strTruthy ats then false
  else
    let checkStr := strToUpper (orElseStr historicalBytes ats)
    if strIncludes checkStr "4A:43:4F:50" || strIncludes checkStr "4A434F50" then
      true
    else if strIncludes checkStr "80:31" || strIncludes checkStr "80:71" then
      true
    else if strTruthy ats && strStartsWith (ats.getD "") "78" then true
    else false

/-- JS truthiness of an optional number: `undefined` and 0 are falsy. -/
def natOptTruthy : Option Nat → Bool
  | none => false
  | some n => n ≠ 0

/-- The `NXP_ISO15693_IC_REFERENCES` table of the ISO 15693 detector: IC
reference byte to chip type; every key of the TS record is listed. -/
def NXP_ISO15693_IC_REFERENCES : Nat → Option ChipType
  | 0x01 | 0x02 | 0x03 => some ChipType.SLIX
  | 0x0a | 0x0b => some ChipType.SLIX_S
  | 0x0c | 0x0d => some ChipType.SLIX_L
  | 0x14 | 0x15 | 0x16 | 0x17 | 0x18 | 0x19 | 0x1a | 0x1b
  | 0x1c | 0x1d | 0x1e | 0x1f => some ChipType.SLIX2
  | 0x24 | 0x25 | 0x26 | 0x27 => some ChipType.ICODE_DNA
  | 0x90 | 0x91 | 0x92 | 0x93 | 0x94 | 0x95 | 0x96 | 0x97
  | 0x98 | 0x99 | 0x9a | 0x9b | 0x9c | 0x9d | 0x9e | 0x9f => some ChipType.ICODE_DNA
  | 0xa0 | 0xa1 | 0xa2 | 0xa3 | 0xa4 | 0xa5 | 0xa6 | 0xa7
  | 0xa8 | 0xa9 | 0xaa | 0xab | 0xac | 0xad | 0xae | 0xaf => some ChipType.ICODE_DNA
  | 0x20 | 0x21 | 0x22 | 0x23 => some ChipType.NTAG5_LINK
  | 0x40 | 0x41 | 0x42 | 0x43 | 0x44 | 0x45 | 0x46 | 0x47
  | 0x48 | 0x49 => some ChipType.NTAG5_BOOST
  | 0x50 | 0x51 | 0x52 | 0x53 => some ChipType.NTAG5_SWITCH
  | _ => none

/-- The `getIcodeTypeFromIcReference` function: exact table lookup first,
then range inference for unknown IC references; 0x80-0x8F and values
outside every documented band yield `none`. -/
def getIcodeTypeFromIcReference (icRef : Nat) : Option ChipType :=
  match NXP_ISO15693_IC_REFERENCES icRef with
  | some t => some t
  | none =>
      if 0x01 ≤ icRef ∧ icRef ≤ 0x09 then some ChipType.SLIX
      else if 0x0a ≤ icRef ∧ icRef ≤ 0x13 then some ChipType.SLIX_S
      else if 0x14 ≤ icRef ∧ icRef ≤ 0x2f then some ChipType.SLIX2
      else if 0x40 ≤ icRef ∧ icRef ≤ 0x4f then some ChipType.NTAG5_BOOST
      else if 0x50 ≤ icRef ∧ icRef ≤ 0x5f then some ChipType.NTAG5_SWITCH
      else if 0x90 ≤ icRef ∧ icRef ≤ 0xbf then some ChipType.ICODE_DNA
      else none

/-- ISO 15693 `GET_SYSTEM_INFO` result record (`Iso15693SystemInfo` in
`services/nfc/commands.ts`); every field is optional on the wire. -/
structure Iso15693SystemInfo where
  dsfid : Option Nat := none
  afi : Option Nat := none
  blockSize : Option Nat := none
  blockCount : Option Nat := none
  icReference : Option Nat := none
deriving DecidableEq, Repr

/-- The `identifySlixFromMemory` function of the ISO 15693 detector: selects
the SLIX/NTAG5 variant purely from block count and block size when no IC
reference is available. -/
def identifySlixFromMemory (blockCount blockSize : Option Nat) :
    Option ChipType :=
  if ¬natOptTruthy blockCount ∨ ¬natOptTruthy blockSize then none
  else
    let bc := blockCount.getD 0
    let totalBytes := bc * blockSize.getD 0
    if totalBytes ≤ 80 ∨ bc ≤ 20 then some ChipType.SLIX_L
    else if totalBytes ≤ 128 ∨ bc ≤ 32 then some ChipType.SLIX
    else if totalBytes ≤ 200 ∨ bc ≤ 50 then some ChipType.SLIX_S
    else if totalBytes ≤ 400 ∨ bc ≤ 100 then some ChipType.SLIX2
    else if totalBytes ≥ 400 then some ChipType.NTAG5_BOOST
    else none

/-- Result record of the ISO 15693 detector (`Iso15693DetectionResult`). -/
structure Iso15693DetectionResult where
  success : Bool
  chipType : Option ChipType := none
  uid : Option String := none
  icManufacturer : Option Nat := none
  icReference : Option Nat := none
  blockSize : Option Nat := none
  blockCount : Option Nat := none
  error : Option String := none
deriving DecidableEq, Repr

/-- The `parseIso15693Uid` function: extract IC manufacturer and reference
from an 8-byte UID, trying MSB-first, LSB-first and heuristic byte
orders. -/
def parseIso15693Uid (uidBytes : List Nat) : Option Nat × Option Nat :=
  if uidBytes.length < 8 then (none, none)
  else if uidBytes.getD 0 0 == 0xe0 then
    (some (uidBytes.getD 1 0), some (uidBytes.getD 2 0))
  else if uidBytes.getD 7 0 == 0xe0 then
    (some (uidBytes.getD 6 0), some (uidBytes.getD 5 0))
  else
    match uidBytes.findIdx? (· == 0xe0) with
    | none => (some (uidBytes.getD 0 0), some (uidBytes.getD 1 0))
    | some e0Index =>
        if e0Index < 4 then
          (some (uidBytes.getD (e0Index + 1) 0), some (uidBytes.getD (e0Index + 2) 0))
        else
          (some (uidBytes.getD (e0Index - 1) 0), some (uidBytes.getD (e0Index - 2) 0))

/-- Pure decision core of `detectIso15693` for the case where the
`GET_SYSTEM_INFO` exchange succeeded: classify from the returned IC
reference when present and non-zero (with the block-count memory override
for NXP chips), otherwise from memory size alone via
`identifySlixFromMemory`.  `uid`, `icManufacturer` and `uidIcReference`
are the values previously parsed from the tag UID. -/
def detectIso15693WithSysInfo (uid : Option String)
    (icManufacturer uidIcReference : Option Nat)
    (sysInfo : Iso15693SystemInfo) : Iso15693DetectionResult :=
  if sysInfo.icReference.isSome ∧ sysInfo.icReference ≠ some 0 then
    let icReference := sysInfo.icReference.getD 0
    if icManufacturer == some 0x04 ∨ icManufacturer == none then
      let fromRef := (getIcodeTypeFromIcReference icReference).getD
        ChipType.ISO15693_UNKNOWN
      let chipType :=
        if icManufacturer == some 0x04 ∧ sysInfo.blockCount.isSome then
          -- memory-based override: block count is authoritative for NXP chips
          let blocks := sysInfo.blockCount.getD 0
          if blocks ≤ 20 then ChipType.SLIX_L
          else if blocks ≤ 36 then ChipType.SLIX
          else if blocks ≤ 44 then ChipType.SLIX_S
          else if blocks ≤ 68 then ChipType.ICODE_DNA
          else if blocks ≤ 85 then ChipType.SLIX2
          else ChipType.NTAG5_BOOST
        else fromRef
      { success := true, chipType := some chipType, uid := uid
        icManufacturer := some (icManufacturer.getD 0x04)
        icReference := some icReference
        blockSize := sysInfo.blockSize, blockCount := sysInfo.blockCount }
    else
      { success := true, chipType := some ChipType.ISO15693_UNKNOWN, uid := uid
        icManufacturer := icManufacturer, icReference := some icReference
        blockSize := sysInfo.blockSize, blockCount := sysInfo.blockCount }
  else if icManufacturer == some 0x04 ∨ icManufacturer == none then
    match identifySlixFromMemory sysInfo.blockCount sysInfo.blockSize with
    | some chipFromMemory =>
        { success := true, chipType := some chipFromMemory, uid := uid
          icManufacturer := some (icManufacturer.getD 0x04)
          icReference := uidIcReference
          blockSize := sysInfo.blockSize, blockCount := sysInfo.blockCount }
    | none =>
        { success := true, chipType := some ChipType.ISO15693_UNKNOWN, uid := uid
          icManufacturer := some (icManufacturer.getD 0x04)
          blockSize := sysInfo.blockSize, blockCount := sysInfo.blockCount }
  else
    { success := true, chipType := some ChipType.ISO15693_UNKNOWN, uid := uid
      icManufacturer := icManufacturer
      blockSize := sysInfo.blockSize, blockCount := sysInfo.blockCount }

/-- NTAG `GET_VERSION` info (`NtagVersionInfo` in `types/detection.ts`). -/
structure NtagVersionInfo where
  vendorId : Nat
  productType : Nat
  productSubtype : Nat
  majorVersion : Nat
  minorVersion : Nat
  storageSize : Nat
  protocolType : Nat
deriving DecidableEq, Repr

/-- Tagged union of protocol-specific version info carried by a
`Transponder` (NTAG fields or DESFire fields, never both). -/
inductive VersionInfo where
  | ntag (info : NtagVersionInfo)
  | desfire (info : DesfireVersionInfo)
deriving DecidableEq, Repr

/-- Temperature reading attached by the sensor sub-probe.  The source
stores floating-point celsius/fahrenheit values; the numbers are irrelevant
to every claim, so they are carried as integers here. -/
structure TempReading where
  celsius : Int
  fahrenheit : Int
deriving DecidableEq, Repr

/-- Storage info from the JavaCard memory applet (`storageInfo`). -/
structure StorageInfo where
  persistentFree : Nat
  persistentTotal : Nat
  transientResetFree : Nat
  transientDeselectFree : Nat
deriving DecidableEq, Repr

/-- Raw detection data copied into a `Transponder` (`rawData` field). -/
structure TransponderRawData where
  uid : String
  sak : Option Nat := none
  atqa : Option String := none
  ats : Option String := none
  historicalBytes : Option String := none
  techTypes : List String := []
deriving DecidableEq, Repr

/-- The `Transponder` classification record of `types/detection.ts`. -/
structure Transponder where
  type : ChipType
  family : ChipFamily
  chipName : String
  memorySize : Option Nat := none
  isCloneable : Bool
  cloneabilityNote : Option String := none
  rawData : TransponderRawData
  versionInfo : Option VersionInfo := none
  sakSwapInfo : Option SakSwapDetection := none
  implantName : Option String := none
  temperature : Option TempReading := none
  temperature2 : Option TempReading := none
  installedApplets : Option (List String) := none
  storageInfo : Option StorageInfo := none
  confidence : Confidence
  detectedOn : Platform
deriving DecidableEq, Repr

/-- Product catalog entry (`Product` in `types/products.ts`), restricted to
the fields the matcher reads: purely presentational fields (description,
form factor, categories, features, url, notes) are omitted. -/
structure Product where
  id : String
  name : String
  compatibleChips : List ChipType
  canReceiveClone : Bool
  exactMatch : Bool
  desfireEvLevel : Option Nat := none
deriving DecidableEq, Repr

/-- Chip types compatible with NTAG216-based implants
(`NTAG21X_COMPATIBLE`). -/
def NTAG21X_COMPATIBLE : List ChipType :=
  [ChipType.NTAG213, ChipType.NTAG215, ChipType.NTAG216]

/-- NTAG I2C compatible chips (`NTAG_I2C_COMPATIBLE`). -/
def NTAG_I2C_COMPATIBLE : List ChipType :=
  [ChipType.NTAG_I2C_1K, ChipType.NTAG_I2C_2K,
   ChipType.NTAG_I2C_PLUS_1K, ChipType.NTAG_I2C_PLUS_2K]

/-- MIFARE Classic compatible chips (`MIFARE_CLASSIC_COMPATIBLE`). -/
def MIFARE_CLASSIC_COMPATIBLE : List ChipType :=
  [ChipType.MIFARE_CLASSIC_1K, ChipType.MIFARE_CLASSIC_4K,
   ChipType.MIFARE_CLASSIC_MINI]

/-- All DESFire chips (`DESFIRE_ALL`). -/
def DESFIRE_ALL : List ChipType :=
  [ChipType.DESFIRE_EV1, ChipType.DESFIRE_EV2, ChipType.DESFIRE_EV3]

/-- ICODE SLIX compatible chips (`SLIX_COMPATIBLE`). -/
def SLIX_COMPATIBLE : List ChipType :=
  [ChipType.SLIX, ChipType.SLIX2, ChipType.SLIX_S, ChipType.SLIX_L]

/-- MIFARE Ultralight compatible chips (`ULTRALIGHT_COMPATIBLE`). -/
def ULTRALIGHT_COMPATIBLE : List ChipType :=
  [ChipType.ULTRALIGHT, ChipType.ULTRALIGHT_C, ChipType.ULTRALIGHT_EV1,
   ChipType.ULTRALIGHT_NANO, ChipType.ULTRALIGHT_AES]

/-- The static product catalog `PRODUCTS` of `data/products.ts`, in source
order. -/
def PRODUCTS : List Product :=
  [ { id := "xnt", name := "xNT"
      compatibleChips := NTAG21X_COMPATIBLE ++ NTAG_I2C_COMPATIBLE
      canReceiveClone := true, exactMatch := true }
  , { id := "xsiid", name := "xSIID"
      compatibleChips := NTAG21X_COMPATIBLE ++ NTAG_I2C_COMPATIBLE
      canReceiveClone := true, exactMatch := true }
  , { id := "xslx", name := "xSLX"
      compatibleChips := SLIX_COMPATIBLE
      canReceiveClone := true, exactMatch := true }
  , { id := "next", name := "NExT"
      compatibleChips := NTAG21X_COMPATIBLE ++ NTAG_I2C_COMPATIBLE
      canReceiveClone := true, exactMatch := true }
  , { id := "next-v2", name := "NExT v2"
      compatibleChips := NTAG21X_COMPATIBLE ++ NTAG_I2C_COMPATIBLE
      canReceiveClone := true, exactMatch := true }
  , { id := "xmagic", name := "xMagic"
      compatibleChips := MIFARE_CLASSIC_COMPATIBLE
      canReceiveClone := true, exactMatch := false }
  , { id := "xdf3", name := "xDF3"
      compatibleChips := DESFIRE_ALL
      canReceiveClone := false, exactMatch := true, desfireEvLevel := some 3 }
  , { id := "xm1", name := "xM1"
      compatibleChips := MIFARE_CLASSIC_COMPATIBLE
      canReceiveClone := true, exactMatch := false }
  , { id := "spark2", name := "VivoKey Spark 2"
      compatibleChips := [ChipType.NTAG424_DNA, ChipType.NTAG424_DNA_TT,
        ChipType.ICODE_DNA]
      canReceiveClone := false, exactMatch := true }
  , { id := "dnext", name := "dNExT"
      compatibleChips := NTAG21X_COMPATIBLE ++ NTAG_I2C_COMPATIBLE
      canReceiveClone := true, exactMatch := true }
  , { id := "dug4t", name := "dUG4T"
      compatibleChips := MIFARE_CLASSIC_COMPATIBLE ++ ULTRALIGHT_COMPATIBLE
      canReceiveClone := true, exactMatch := false }
  , { id := "flexnt", name := "flexNT"
      compatibleChips := NTAG21X_COMPATIBLE ++ NTAG_I2C_COMPATIBLE
      canReceiveClone := true, exactMatch := true }
  , { id := "flexdf2", name := "flexDF2"
      compatibleChips := DESFIRE_ALL
      canReceiveClone := false, exactMatch := true, desfireEvLevel := some 2 }
  , { id := "flexm1-v2", name := "flexM1 v2"
      compatibleChips := MIFARE_CLASSIC_COMPATIBLE
      canReceiveClone := true, exactMatch := false }
  , { id := "apex-flex", name := "Apex Flex"
      compatibleChips := [ChipType.JCOP4, ChipType.JAVACARD_UNKNOWN]
      canReceiveClone := false, exactMatch := true }
  , { id := "flexsecure", name := "flexSecure"
      compatibleChips := [ChipType.JCOP4, ChipType.JAVACARD_UNKNOWN]
      canReceiveClone := false, exactMatch := true }
  , { id := "flexclass", name := "flexClass"
      compatibleChips := []
      canReceiveClone := false, exactMatch := false }
  , { id := "flexug4", name := "flexUG4"
      compatibleChips := MIFARE_CLASSIC_COMPATIBLE ++ ULTRALIGHT_COMPATIBLE
      canReceiveClone := true, exactMatch := false }
  , { id := "temptress", name := "Temptress"
      compatibleChips := [ChipType.NTAG5_BOOST, ChipType.NTAG5_LINK]
      canReceiveClone := false, exactMatch := true }
  , { id := "vk-thermo-112", name := "VivoKey Thermo 112"
      compatibleChips := [ChipType.NTAG5_BOOST, ChipType.NTAG5_LINK]
      canReceiveClone := false, exactMatch := true } ]

/-- Lookup in the chip-to-product map built by `buildChipProductMap`: the
map accumulates, in catalog order, every product whose `compatibleChips`
lists the chip type, so the lookup equals this filter. -/
def chipProducts (chipType : ChipType) : List Product :=
  PRODUCTS.filter (fun p => p.compatibleChips.contains chipType)

/-- The conversion-service URL constant (`CONVERSION_SERVICE_URL`). -/
def CONVERSION_SERVICE_URL : String := "https://dngr.us/conversion"

/-- Result record of the matcher (`MatchResult` in `types/products.ts`). -/
structure MatchResult where
  exactMatches : List Product
  cloneTargets : List Product
  familyMatches : List Product
  isCloneable : Bool
  cloneabilityNote : Option String := none
  conversionRecommended : Bool
  conversionUrl : String
deriving DecidableEq, Repr

/-- The `findFamilyMatches` helper of the matcher: catalog products sharing
the chip family, excluding every directly-mapped product by id. -/
def findFamilyMatches (chipFamily : ChipFamily)
    (excludeProducts : List Product) : List Product :=
  let excludeIds := excludeProducts.map (fun p => p.id)
  PRODUCTS.filter (fun p =>
    !excludeIds.contains p.id
      && (p.compatibleChips.map getChipFamily).contains chipFamily)

/-- The `matchChipToProducts` function of `services/matching/matcher.ts`:
partition the catalog into exact matches, clone targets and family matches
and emit the cloneability verdict and conversion recommendation. -/
def matchChipToProducts (chip : Transponder) : MatchResult :=
  let chipType := chip.type
  let cloneability := CHIP_CLONEABILITY chipType
  let chipFamily := getChipFamily chipType
  let directMatches := chipProducts chipType
  let exactMatches := directMatches.filter (fun p => p.exactMatch)
  -- clone-target filter; the source skips magic products unless
  -- uid.replaceAll(":","").length / 2 === 4, i.e. the hex UID has length 8
  let cloneTargets := directMatches.filter (fun p =>
    p.canReceiveClone && cloneability.cloneable
      && !((strStartsWith p.name "xMagic" || strStartsWith p.name "xM1"
            || strStartsWith p.name "flexM1")
          && (removeColons chip.rawData.uid).length ≠ 8))
  let familyMatches := findFamilyMatches chipFamily directMatches
  let hasMatches := exactMatches.length > 0 || cloneTargets.length > 0
  { exactMatches := exactMatches
    cloneTargets := cloneTargets
    familyMatches := familyMatches
    isCloneable := cloneability.cloneable
    cloneabilityNote := cloneability.note
    conversionRecommended := !hasMatches || !cloneability.cloneable
    conversionUrl := CONVERSION_SERVICE_URL }

/-- Per-scan raw tag reading (`RawTagData` in `types/nfc.ts`).
`mifareClassicSize` models the platform capacity hint `mifareClassic?.size`
read by the orchestrator. -/
structure RawTagData where
  uid : String
  techTypes : List String
  atqa : Option String := none
  sak : Option Nat := none
  ats : Option String := none
  historicalBytes : Option String := none
  maxTransceiveLength : Option Nat := none
  mifareClassicSize : Option Nat := none
deriving DecidableEq, Repr

/-- JS `s.replace(/[:\s-]/g, '')`: strip colons, dashes and whitespace. -/
def stripSeps (s : String) : String :=
  String.mk (s.toList.filter (fun c => !(c == ':' || c == '-' || c.isWhitespace)))

/-- Result record of the NTAG detector (`NtagDetectionResult`). -/
structure NtagDetectionResult where
  success : Bool
  chipType : Option ChipType := none
  versionInfo : Option NtagVersionInfo := none
  memorySize : Option Nat := none
  error : Option String := none
deriving DecidableEq, Repr

/-- Result of the best-effort implant-name memory scan
(`detectImplantNameInMemory`); the orchestrator reads `found` and `name`. -/
structure ImplantNameResult where
  found : Bool
  name : Option String := none
deriving DecidableEq, Repr

/-- Result of Spark 2 implant detection (`Spark2DetectionResult`). -/
structure Spark2DetectionResult where
  found : Bool
  name : Option String := none
  url : Option String := none
deriving DecidableEq, Repr

/-- Result record of the JavaCard detector (`JavaCardDetectionResult`);
`isFidesmo` is the Fidesmo-platform flag the orchestrator passes to
`getJavacardImplantName`. -/
structure JavaCardDetectionResult where
  success : Bool
  chipType : Option ChipType := none
  fabricatorName : Option String := none
  osName : Option String := none
  installedApplets : Option (List String) := none
  isFidesmo : Option Bool := none
  error : Option String := none
deriving DecidableEq, Repr

/-- Result record of the NTAG5 sensor sub-probe (`Ntag5SensorResult`),
restricted to the fields the orchestrator reads. -/
structure Ntag5SensorResult where
  detected : Bool
  deviceType : String := ""
  sensorType : String := ""
  implantName : Option String := none
  temperature : Option TempReading := none
  temperature2 : Option TempReading := none
deriving DecidableEq, Repr

/-- Result of Spark 1 implant detection (`SparkDetectionResult`). -/
structure SparkDetectionResult where
  found : Bool
  name : Option String := none
  url : Option String := none
deriving DecidableEq, Repr

/-- Outcomes of the transport-backed probes the orchestrator awaits, plus
the outcomes of the pure pattern-matching helpers it consults.  An
`Except.error` models a thrown transport exception.  The two pure ATS
helpers (`detectDesfireFromAts`, `detectJavaCardFromAts`) and the pure NDEF
scan (`detectSpark2FromNdef`) appear as plain values: the orchestrator
properties proved below hold for every value they can return, so they are
universally quantified instead of being recomputed here.
`detectJavaCardFromAts` is called twice with identical arguments, hence a
single `jcAtsResult` field. -/
structure ProbeEnv where
  ntagResult : Except Unit NtagDetectionResult
  implantResult : Except Unit ImplantNameResult
  desfireResult : Except Unit DesfireDetectionResult
  desfireApps : Except Unit (List String)
  spark2Ndef : Spark2DetectionResult
  spark2Apdu : Except Unit Spark2DetectionResult
  desfireAtsResult : DesfireDetectionResult
  jcResult : Except Unit JavaCardDetectionResult
  jcStorage : Except Unit (Option StorageInfo)
  jcAtsResult : JavaCardDetectionResult
  jcFallback : Except Unit JavaCardDetectionResult
  jcFallbackStorage : Except Unit (Option StorageInfo)
  iso15693Result : Except Unit Iso15693DetectionResult
  sensorResult : Except Unit Ntag5SensorResult
  sparkResult : Except Unit SparkDetectionResult

/-- Overall detection result (`DetectionResult` in `types/detection.ts`). -/
structure DetectionResult where
  success : Bool
  transponder : Option Transponder := none
  error : Option String := none
deriving Repr

/-- Options bag of `createTransponder` (its optional parameters). -/
structure TransponderOptions where
  memorySize : Option Nat := none
  versionInfo : Option VersionInfo := none
  confidence : Option Confidence := none
  sakSwapInfo : Option SakSwapDetection := none
  implantName : Option String := none
  temperature : Option TempReading := none
  temperature2 : Option TempReading := none
  installedApplets : Option (List String) := none
  storageInfo : Option StorageInfo := none

/-- The `createTransponder` helper of the orchestrator: assemble a
`Transponder`, filling family, name, memory size, cloneability and the
SAK-swap diagnostic from the static tables and the SAK-swap analyzer;
confidence defaults to Medium. -/
def createTransponder (platform : Platform) (type : ChipType)
    (rawData : RawTagData) (options : TransponderOptions) : Transponder :=
  let cloneInfo := CHIP_CLONEABILITY type
  let sakSwapInfo :=
    if options.sakSwapInfo.isNone ∧ rawData.sak.isSome then
      some (detectSakSwap (rawData.sak.getD 0) rawData.atqa rawData.historicalBytes)
    else options.sakSwapInfo
  { type := type
    family := getChipFamily type
    chipName := CHIP_NAMES type
    memorySize := options.memorySize <|> CHIP_MEMORY_SIZES type
    isCloneable := cloneInfo.cloneable
    cloneabilityNote := cloneInfo.note
    rawData :=
      { uid := rawData.uid, sak := rawData.sak, atqa := rawData.atqa
        ats := rawData.ats, historicalBytes := rawData.historicalBytes
        techTypes := rawData.techTypes }
    versionInfo := options.versionInfo
    sakSwapInfo := sakSwapInfo
    implantName := options.implantName
    temperature := options.temperature
    temperature2 := options.temperature2
    installedApplets := options.installedApplets
    storageInfo := options.storageInfo
    confidence := options.confidence.getD Confidence.medium
    detectedOn := platform }

/-- The `getJavacardImplantName` helper of the orchestrator: payment cards
are named after their network, Fidesmo implies Apex, the memory applet
without Fidesmo implies flexSecure. -/
def getJavacardImplantName (installedApplets : Option (List String))
    (isFidesmo : Option Bool) : Option String :=
  match installedApplets with
  | none => none
  | some apps =>
      if apps.length == 0 then none
      else if apps.contains "Payment (PPSE)" then
        match apps.find? (fun a =>
            ["Visa", "Mastercard", "American Express", "Discover",
              "Maestro"].contains a) with
        | some network => some (network ++ " Payment Card")
        | none => some "Payment Card"
      else if isFidesmo == some true || apps.contains "Fidesmo" then some "Apex"
      else if apps.contains "JavaCard Memory" then some "flexSecure"
      else none

/-- Step 5 and final fallback of `detectChip`: ISO 14443-B terminal state,
then the fully unknown terminal state. -/
def detectChipStep5 (platform : Platform) (rawData : RawTagData) :
    DetectionResult :=
  if rawData.techTypes.any (fun t => strIncludes t "NfcB") then
    { success := true
      transponder := some (createTransponder platform ChipType.ISO14443B_UNKNOWN
        rawData { confidence := some Confidence.low }) }
  else
    { success := true
      transponder := some (createTransponder platform ChipType.UNKNOWN
        rawData { confidence := some Confidence.low }) }

/-- Step 4 of `detectChip`: the ISO 15693 path with the sensor and Spark
sub-probes, falling through to step 5 when the tag is not ISO 15693. -/
def detectChipStep4 (platform : Platform) (rawData : RawTagData)
    (env : ProbeEnv) : Except Unit DetectionResult :=
  if isIso15693 rawData.techTypes then
    match env.iso15693Result with
    | .error e => .error e
    | .ok iso15693Result =>
        if iso15693Result.success ∧ iso15693Result.chipType.isSome then
          let ct := iso15693Result.chipType.getD ChipType.UNKNOWN
          let knownTypes : List ChipType :=
            [ChipType.SLIX, ChipType.SLIX2, ChipType.SLIX_S, ChipType.SLIX_L,
             ChipType.NTAG5_LINK, ChipType.NTAG5_BOOST, ChipType.NTAG5_SWITCH]
          let confidence :=
            if ct = ChipType.ISO15693_UNKNOWN then Confidence.low
            else if knownTypes.contains ct then Confidence.high
            else Confidence.medium
          let isNtag5WithI2c :=
            ct = ChipType.NTAG5_BOOST ∨ ct = ChipType.NTAG5_LINK
          -- sensor sub-probe, best effort: its exception is caught
          let sensor : Option Ntag5SensorResult :=
            if isNtag5WithI2c ∧ strTruthy iso15693Result.uid then
              match env.sensorResult with
              | .ok s => some s
              | .error _ => none
            else none
          let fromSensor : Option String × Option TempReading × Option TempReading :=
            match sensor with
            | some s =>
                if s.detected ∧ strTruthy s.implantName then
                  (s.implantName, s.temperature, s.temperature2)
                else (none, none, none)
            | none => (none, none, none)
          -- Spark probe, best effort, only when no implant name yet
          let implantName : Option String :=
            if ¬strTruthy fromSensor.1 then
              match env.sparkResult with
              | .ok sp =>
                  if sp.found ∧ strTruthy sp.name then sp.name else fromSensor.1
              | .error _ => fromSensor.1
            else fromSensor.1
          .ok { success := true
                transponder := some (createTransponder platform ct rawData
                  { confidence := some confidence
                    implantName := implantName
                    temperature := fromSensor.2.1
                    temperature2 := fromSensor.2.2 }) }
        else
          .ok { success := true
                transponder := some (createTransponder platform
                  ChipType.ISO15693_UNKNOWN rawData
                  { confidence := some Confidence.low }) }
  else
    .ok (detectChipStep5 platform rawData)

/-- Steps 3d and 3e of `detectChip`: the general JavaCard fallback probe,
then the last-resort ATS-based JavaCard detection, then the unknown
ISO 14443-A terminal state. -/
def detectChipStep3d (platform : Platform) (rawData : RawTagData)
    (env : ProbeEnv) : Except Unit DetectionResult :=
  match env.jcFallback with
  | .error e => .error e
  | .ok jcFallback =>
      if jcFallback.success ∧ jcFallback.chipType.isSome then
        let implantName := getJavacardImplantName jcFallback.installedApplets
          jcFallback.isFidesmo
        let storageInfo : Option StorageInfo :=
          match env.jcFallbackStorage with
          | .ok (some mem) => some mem
          | _ => none
        .ok { success := true
              transponder := some (createTransponder platform
                (jcFallback.chipType.getD ChipType.UNKNOWN) rawData
                { confidence := some Confidence.medium
                  implantName := implantName
                  installedApplets := jcFallback.installedApplets
                  storageInfo := storageInfo }) }
      else if env.jcAtsResult.success ∧ env.jcAtsResult.chipType.isSome then
        .ok { success := true
              transponder := some (createTransponder platform
                (env.jcAtsResult.chipType.getD ChipType.UNKNOWN) rawData
                { confidence := some Confidence.low }) }
      else
        .ok { success := true
              transponder := some (createTransponder platform
                ChipType.ISO14443A_UNKNOWN rawData
                { confidence := some Confidence.low }) }

/-- Step 3 of `detectChip`: the ISO-DEP sub-waterfall (DESFire version
query, DESFire ATS fallback, JavaCard CPLC probe, JavaCard ATS fallback,
generic JavaCard re-probe, unknown ISO 14443-A), falling through to step 4
when the tag is not ISO-DEP capable. -/
def detectChipStep3 (platform : Platform) (rawData : RawTagData)
    (env : ProbeEnv) : Except Unit DetectionResult :=
  let hasIsoDepTech := rawData.techTypes.any (fun t => strIncludes t "IsoDep")
  let sakIsoDep : Bool :=
    match rawData.sak with
    | some s => hasIsoDepCapability s
    | none => false
  if sakIsoDep ∨ hasIsoDepTech then
    match env.desfireResult with
    | .error e => .error e
    | .ok desfireResult =>
        if desfireResult.success ∧ desfireResult.chipType.isSome then
          let ct := desfireResult.chipType.getD ChipType.UNKNOWN
          -- best-effort application enumeration (exception caught)
          let desfireAppLabels : Option (List String) :=
            match env.desfireApps with
            | .ok apps => if apps.length > 0 then some apps else none
            | .error _ => none
          let isNtagDna := ct = ChipType.NTAG424_DNA
            ∨ ct = ChipType.NTAG424_DNA_TT ∨ ct = ChipType.NTAG413_DNA
          -- Spark 2: cached NDEF first, then best-effort APDU path
          let implantName : Option String :=
            if isNtagDna then
              if env.spark2Ndef.found ∧ strTruthy env.spark2Ndef.name then
                env.spark2Ndef.name
              else
                match env.spark2Apdu with
                | .ok sp => if sp.found ∧ strTruthy sp.name then sp.name else none
                | .error _ => none
            else none
          .ok { success := true
                transponder := some (createTransponder platform ct rawData
                  { memorySize := desfireResult.storageSize
                    versionInfo := desfireResult.versionInfo.map VersionInfo.desfire
                    confidence := some (desfireResultConfidence ct)
                    implantName := implantName
                    installedApplets := desfireAppLabels }) }
        else if env.desfireAtsResult.success ∧ env.desfireAtsResult.chipType.isSome then
          .ok { success := true
                transponder := some (createTransponder platform
                  (env.desfireAtsResult.chipType.getD ChipType.UNKNOWN) rawData
                  { memorySize := env.desfireAtsResult.storageSize
                    confidence := some Confidence.medium }) }
        else if mightBeJavaCard rawData.historicalBytes rawData.ats then
          match env.jcResult with
          | .error e => .error e
          | .ok jcResult =>
              if jcResult.success ∧ jcResult.chipType.isSome then
                let jct := jcResult.chipType.getD ChipType.UNKNOWN
                let implantName := getJavacardImplantName
                  jcResult.installedApplets jcResult.isFidesmo
                let storageInfo : Option StorageInfo :=
                  match env.jcStorage with
                  | .ok (some mem) => some mem
                  | _ => none
                .ok { success := true
                      transponder := some (createTransponder platform jct rawData
                        { confidence := some (if jct = ChipType.JCOP4
                            then Confidence.high else Confidence.medium)
                          implantName := implantName
                          installedApplets := jcResult.installedApplets
                          storageInfo := storageInfo }) }
              else if env.jcAtsResult.success ∧ env.jcAtsResult.chipType.isSome then
                .ok { success := true
                      transponder := some (createTransponder platform
                        (env.jcAtsResult.chipType.getD ChipType.UNKNOWN) rawData
                        { confidence := some Confidence.medium }) }
              else detectChipStep3d platform rawData env
        else detectChipStep3d platform rawData env
  else detectChipStep4 platform rawData env

/-- Step 2 of `detectChip`: the NTAG path with its Ultralight and
unknown-NTAG fallbacks, falling through to step 3 otherwise. -/
def detectChipStep2 (platform : Platform) (rawData : RawTagData)
    (env : ProbeEnv) : Except Unit DetectionResult :=
  if mightBeNtag rawData.sak (some rawData.techTypes) then
    match env.ntagResult with
    | .error e => .error e
    | .ok ntagResult =>
        if ntagResult.success ∧ ntagResult.chipType.isSome then
          let ct := ntagResult.chipType.getD ChipType.UNKNOWN
          -- best-effort implant-name scan (exception caught)
          let implantName : Option String :=
            match env.implantResult with
            | .ok ir => if ir.found ∧ strTruthy ir.name then ir.name else none
            | .error _ => none
          .ok { success := true
                transponder := some (createTransponder platform ct rawData
                  { memorySize := ntagResult.memorySize
                    versionInfo := ntagResult.versionInfo.map VersionInfo.ntag
                    confidence := some (if ct = ChipType.NTAG_UNKNOWN
                      then Confidence.medium else Confidence.high)
                    implantName := implantName }) }
        else if (rawData.sak == some 0x00 ∨ rawData.sak == none)
            ∧ rawData.techTypes.any (fun t => strIncludes t "NfcA") then
          if rawData.techTypes.any (fun t => strIncludes t "MifareUltralight") then
            .ok { success := true
                  transponder := some (createTransponder platform
                    ChipType.ULTRALIGHT rawData
                    { memorySize := some 48
                      confidence := some Confidence.medium }) }
          else
            .ok { success := true
                  transponder := some (createTransponder platform
                    ChipType.NTAG_UNKNOWN rawData
                    { confidence := some Confidence.low }) }
        else detectChipStep3 platform rawData env
  else detectChipStep3 platform rawData env

/-- The waterfall body of `detectChip` (everything inside its `try`): step 1
is the MIFARE Classic fast path, first via the MifareClassic technology
hint, then via SAK. -/
def detectChipE (platform : Platform) (rawData : RawTagData)
    (env : ProbeEnv) : Except Unit DetectionResult :=
  let sak := rawData.sak
  let hasMifareClassicTech :=
    rawData.techTypes.any (fun t => strIncludes t "MifareClassic")
  let hasIsoDepTech := rawData.techTypes.any (fun t => strIncludes t "IsoDep")
  if hasMifareClassicTech ∧ ¬hasIsoDepTech then
    -- priority: platform capacity hint, then SAK, then UID length
    let selected : ChipType × Nat :=
      if natOptTruthy rawData.mifareClassicSize then
        let size := rawData.mifareClassicSize.getD 0
        if size ≥ 4096 then (ChipType.MIFARE_CLASSIC_4K, 4096)
        else if size ≥ 1024 then (ChipType.MIFARE_CLASSIC_1K, 1024)
        else if size ≥ 320 then (ChipType.MIFARE_CLASSIC_MINI, 320)
        else (ChipType.MIFARE_CLASSIC_1K, 1024)
      else if sak == some 0x18 ∨ sak == some 0x38 ∨ sak == some 0x98 then
        (ChipType.MIFARE_CLASSIC_4K, 4096)
      else if sak == some 0x09 then (ChipType.MIFARE_CLASSIC_MINI, 320)
      else if strTruthy (some rawData.uid)
          ∧ (stripSeps rawData.uid).length == 14 ∧ sak == none then
        (ChipType.MIFARE_CLASSIC_4K, 4096)
      else (ChipType.MIFARE_CLASSIC_1K, 1024)
    .ok { success := true
          transponder := some (createTransponder platform selected.1 rawData
            { memorySize := some selected.2
              confidence := some Confidence.high }) }
  else
  let sakIsClassic : Bool :=
    match sak with
    | some s => isMifareClassicSak s
    | none => false
  if sakIsClassic ∧ ¬hasIsoDepTech then
    let result := detectMifareClassic platform (sak.getD 0)
    if result.success ∧ result.chipType.isSome then
      .ok { success := true
            transponder := some (createTransponder platform
              (result.chipType.getD ChipType.UNKNOWN) rawData
              { memorySize := result.memorySize
                confidence := some Confidence.high }) }
    else detectChipStep2 platform rawData env
  else detectChipStep2 platform rawData env

/-- The `detectChip` orchestrator of `services/detection/detector.ts`: runs
the waterfall and converts an escaped probe exception into the failure
`DetectionResult` (the surrounding `catch`). -/
def detectChip (platform : Platform) (rawData : RawTagData)
    (env : ProbeEnv) : DetectionResult :=
  match detectChipE platform rawData env with
  | .ok r => r
  | .error _ => { success := false, error := some "Detection failed" }

/-- Concrete system info used to witness C7: 128 blocks of 4 bytes, no IC
reference. -/
def boostSysInfo : Iso15693SystemInfo :=
  { blockSize := some 4, blockCount := some 128 }

/-- Probe environment in which every transport probe returns a failed (but
not thrown) result; used to instantiate the orchestrator theorems. -/
def allOkEnv : ProbeEnv :=
  { ntagResult := .ok { success := false }
    implantResult := .ok { found := false }
    desfireResult := .ok { success := false }
    desfireApps := .ok []
    spark2Ndef := { found := false }
    spark2Apdu := .ok { found := false }
    desfireAtsResult := { success := false }
    jcResult := .ok { success := false }
    jcStorage := .ok none
    jcAtsResult := { success := false }
    jcFallback := .ok { success := false }
    jcFallbackStorage := .ok none
    iso15693Result := .ok { success := false }
    sensorResult := .ok { detected := false }
    sparkResult := .ok { found := false } }

/-- Raw reading of a SAK 0x08 tag with only NfcA technology. -/
def sak08Reading : RawTagData :=
  { uid := "04:A2:19:6F", techTypes := ["android.nfc.tech.NfcA"]
    sak := some 0x08 }

/-- Transponder of a detected NTAG216 chip: cloneable, and every product
mapped to NTAG216 in the catalog is an exact match. -/
def ntag216Transponder : Transponder :=
  createTransponder Platform.android ChipType.NTAG216
    { uid := "04:A2:19:6F", techTypes := ["android.nfc.tech.NfcA"] }
    { confidence := some Confidence.high }

/-- Transponder of an unknown ISO 14443-A chip: not cloneable, and mapped
to no catalog product. -/
def unknownIso14443aTransponder : Transponder :=
  createTransponder Platform.android ChipType.ISO14443A_UNKNOWN
    { uid := "04:A2:19:6F:11:22:33", techTypes := ["android.nfc.tech.IsoDep"] }
    { confidence := some Confidence.low }

/-- The default product used to index into computed match lists. -/
def emptyProduct : Product :=
  { id := "", name := "", compatibleChips := [], canReceiveClone := false
    exactMatch := false }

/-- Transponder of a detected NTAG213 chip, used to witness the family
match disjointness. -/
def ntag213Transponder : Transponder :=
  createTransponder Platform.android ChipType.NTAG213
    { uid := "04:11:22:33", techTypes := ["android.nfc.tech.NfcA"] }
    { confidence := some Confidence.high }

/-! Theorems -/

/-- C3: for every response of length at least 2 (written as `xs ++ [a, b]`),
`parseApduResponse` returns the payload with the final two bytes removed,
`sw1`/`sw2` equal to those final bytes, and success exactly when `sw1` is
0x90 or 0x91; the status bytes are returned, so the 0x91 continuation case
is distinguishable from terminal 0x90 success; in particular `[0x91, 0xAF]`
parses as success with empty payload and `[0x6A, 0x82]` as failure. -/
theorem parseApduResponse_spec (xs : List Nat) (a b : Nat) :
    parseApduResponse (xs ++ [a, b]) =
      { data := xs, sw1 := a, sw2 := b, isSuccess := a == 0x90 || a == 0x91 }
    ∧ ((parseApduResponse (xs ++ [a, b])).isSuccess = true ↔ a = 0x90 ∨ a = 0x91)
    ∧ parseApduResponse [0x91, 0xaf] =
      { data := [], sw1 := 0x91, sw2 := 0xaf, isSuccess := true }
    ∧ (parseApduResponse [0x6a, 0x82]).isSuccess = false := by
  have hlen : (xs ++ [a, b]).length = xs.length + 2 := by simp
  have hmain : parseApduResponse (xs ++ [a, b]) =
      { data := xs, sw1 := a, sw2 := b, isSuccess := a == 0x90 || a == 0x91 } := by
    unfold parseApduResponse
    rw [if_neg (by omega)]
    simp only [hlen, Nat.add_sub_cancel]
    have h1 : (xs ++ [a, b]).getD xs.length 0 = a := by
      rw [List.getD_eq_getElem?_getD, List.getElem?_append_right (le_refl _)]
      simp
    have h2 : (xs ++ [a, b]).getD (xs.length + 2 - 1) 0 = b := by
      rw [List.getD_eq_getElem?_getD,
        List.getElem?_append_right (by omega)]
      have : xs.length + 2 - 1 - xs.length = 1 := by omega
      rw [this]
      simp
    rw [h1, h2, List.take_left]
  refine ⟨hmain, ?_, by decide, by decide⟩
  rw [hmain]
  simp

/-- C10: `parseApduResponse` is a total function of the byte list (it is a
plain Lean function, so it cannot throw), and every input shorter than two
bytes yields the fixed failure value with empty payload, zero status bytes
and `isSuccess = false`. -/
theorem parseApduResponse_short (r : List Nat) (h : r.length < 2) :
    parseApduResponse r = { data := [], sw1 := 0, sw2 := 0, isSuccess := false } := by
  unfold parseApduResponse
  rw [if_pos h]

/-- Witness for C10 at the empty response. -/
theorem parseApduResponse_short_witness :
    ([] : List Nat).length < 2
    ∧ parseApduResponse [] = { data := [], sw1 := 0, sw2 := 0, isSuccess := false } :=
  ⟨by decide, parseApduResponse_short [] (by decide)⟩

/-- C1: a DESFire `GET_VERSION` first frame with vendor byte 0x04, product
type 0x04 and subtype 0x05 is classified as NTAG 424 DNA (not 413 DNA and
not the TagTamper variant) for every major/minor/storage/protocol byte, and
for the DNA product type the classification depends only on the subtype
byte, never on the storage-size (or major-version) byte. -/
theorem detectDesfire_ntag424dna (major minor storage proto : Nat) :
    (detectDesfirePure [0x04, 0x04, 0x05, major, minor, storage, proto, 0x91, 0xaf]
        none).chipType = some ChipType.NTAG424_DNA
    ∧ (detectDesfirePure [0x04, 0x04, 0x05, major, minor, storage, proto, 0x91, 0xaf]
        none).chipType ≠ some ChipType.NTAG413_DNA
    ∧ (detectDesfirePure [0x04, 0x04, 0x05, major, minor, storage, proto, 0x91, 0xaf]
        none).chipType ≠ some ChipType.NTAG424_DNA_TT
    ∧ desfireChipType 0x04 0x05 major storage = ChipType.NTAG424_DNA
    ∧ (∀ sub major' storage',
        desfireChipType 0x04 sub major storage = desfireChipType 0x04 sub major' storage') := by
  have hcore : ∀ m s : Nat, desfireChipType 0x04 0x05 m s = ChipType.NTAG424_DNA := by
    intro m s
    rfl
  have hpure : (detectDesfirePure
      [0x04, 0x04, 0x05, major, minor, storage, proto, 0x91, 0xaf] none).chipType
      = some ChipType.NTAG424_DNA := by
    show (detectDesfirePure _ none).chipType = _
    unfold detectDesfirePure
    norm_num [parseApduResponse, desfireChipType]
  refine ⟨hpure, ?_, ?_, hcore major storage, ?_⟩
  · rw [hpure]; simp
  · rw [hpure]; simp
  · intro sub major' storage'
    rfl

/-- C2 counterexample: hardware major 0x13 (product type 0x01) is absent
from the exact version table and is range-inferred as DESFire EV2, yet the
orchestrator assigns it the same High confidence as the exact table match
0x12 — the range-inferred classification is not reported at lower
confidence, contradicting the claim. -/
theorem desfireRangeInference_not_lower :
    DESFIRE_VERSION_MAP 0x13 = none
    ∧ desfireChipType 0x01 0x00 0x13 0x18 = ChipType.DESFIRE_EV2
    ∧ DESFIRE_VERSION_MAP 0x12 = some ChipType.DESFIRE_EV2
    ∧ desfireChipType 0x01 0x00 0x12 0x18 = ChipType.DESFIRE_EV2
    ∧ desfireResultConfidence (desfireChipType 0x01 0x00 0x13 0x18) = Confidence.high
    ∧ desfireResultConfidence (desfireChipType 0x01 0x00 0x12 0x18) = Confidence.high
    ∧ ¬((desfireResultConfidence (desfireChipType 0x01 0x00 0x13 0x18)).rank
        < (desfireResultConfidence (desfireChipType 0x01 0x00 0x12 0x18)).rank) := by
  decide

/-- C2 amended: for product type 0x01, a hardware major byte absent from
the version table is classified by numeric-range inference; the inferred
EV1/EV2/EV3 classifications are reported at the same High confidence as
exact table matches (an exact match never reports lower confidence than a
range-inferred one), and only the `DESFIRE_UNKNOWN` outcome of a failed
inference is demoted to Medium confidence. -/
theorem desfireRangeInference_amended (sub major storage : Nat)
    (h : DESFIRE_VERSION_MAP major = none) :
    desfireChipType 0x01 sub major storage =
      (if major ≤ 0x01 then ChipType.DESFIRE_EV1
       else if 0x10 ≤ major ∧ major < 0x30 then ChipType.DESFIRE_EV2
       else if 0x30 ≤ major then ChipType.DESFIRE_EV3
       else ChipType.DESFIRE_UNKNOWN)
    ∧ (desfireResultConfidence (desfireChipType 0x01 sub major storage) =
        Confidence.medium
        ↔ desfireChipType 0x01 sub major storage = ChipType.DESFIRE_UNKNOWN)
    ∧ (∀ major' t, DESFIRE_VERSION_MAP major' = some t →
        desfireResultConfidence (desfireChipType 0x01 sub major' storage) =
          Confidence.high
        ∧ (desfireResultConfidence (desfireChipType 0x01 sub major storage)).rank
            ≤ (desfireResultConfidence (desfireChipType 0x01 sub major' storage)).rank) := by
  have hinfer : desfireChipType 0x01 sub major storage =
      (if major ≤ 0x01 then ChipType.DESFIRE_EV1
       else if 0x10 ≤ major ∧ major < 0x30 then ChipType.DESFIRE_EV2
       else if 0x30 ≤ major then ChipType.DESFIRE_EV3
       else ChipType.DESFIRE_UNKNOWN) := by
    simp [desfireChipType, h]
  have hexact : ∀ major' t, DESFIRE_VERSION_MAP major' = some t →
      desfireChipType 0x01 sub major' storage = t ∧ t ≠ ChipType.DESFIRE_UNKNOWN := by
    intro major' t ht
    constructor
    · simp [desfireChipType, ht]
    · unfold DESFIRE_VERSION_MAP at ht
      split at ht
      · exact Option.some_injective _ ht ▸ (by decide)
      · split at ht
        · exact Option.some_injective _ ht ▸ (by decide)
        · split at ht
          · exact Option.some_injective _ ht ▸ (by decide)
          · exact absurd ht (by simp)
  refine ⟨hinfer, ?_, ?_⟩
  · constructor
    · intro hm
      by_contra hne
      rw [desfireResultConfidence, if_neg hne] at hm
      exact absurd hm (by decide)
    · intro hu
      rw [desfireResultConfidence, if_pos hu]
  · intro major' t ht
    obtain ⟨heq, hne⟩ := hexact major' t ht
    have hhigh : desfireResultConfidence (desfireChipType 0x01 sub major' storage) =
        Confidence.high := by
      rw [heq, desfireResultConfidence, if_neg hne]
    refine ⟨hhigh, ?_⟩
    rw [hhigh]
    cases hc : desfireResultConfidence (desfireChipType 0x01 sub major storage) <;>
      simp [Confidence.rank]

/-- Witness for the amended C2 theorem at the unmatched major byte 0x13. -/
theorem desfireRangeInference_amended_witness :
    DESFIRE_VERSION_MAP 0x13 = none
    ∧ desfireChipType 0x01 0x00 0x13 0x18 =
      (if (0x13 : Nat) ≤ 0x01 then ChipType.DESFIRE_EV1
       else if (0x10 : Nat) ≤ 0x13 ∧ (0x13 : Nat) < 0x30 then ChipType.DESFIRE_EV2
       else if (0x30 : Nat) ≤ 0x13 then ChipType.DESFIRE_EV3
       else ChipType.DESFIRE_UNKNOWN) :=
  ⟨by decide, (desfireRangeInference_amended 0x00 0x13 0x18 (by decide)).1⟩

/-- C8: `getChipFamily` is total and deterministic over the closed
`ChipType` enumeration: it agrees with the explicit one-family-per-identity
table `chipFamilySpec` on every identity (so the prefix dispatch is
unambiguous, in particular NTAG5 identities land in ISO15693 and not NTAG),
and the same input can never yield two different families. -/
theorem getChipFamily_total (t : ChipType) :
    getChipFamily t = chipFamilySpec t
    ∧ ∀ f f', getChipFamily t = f → getChipFamily t = f' → f = f' := by
  refine ⟨?_, fun f f' h h' => h.symm.trans h'⟩
  cases t <;> decide

/-- Witness for C8 at NTAG5 Boost (the identity where the prefix order
matters most). -/
theorem getChipFamily_total_witness :
    getChipFamily ChipType.NTAG5_BOOST = chipFamilySpec ChipType.NTAG5_BOOST
    ∧ ChipFamily.ISO15693 = ChipFamily.ISO15693 :=
  ⟨(getChipFamily_total ChipType.NTAG5_BOOST).1,
   (getChipFamily_total ChipType.NTAG5_BOOST).2 ChipFamily.ISO15693
     ChipFamily.ISO15693 rfl rfl⟩

/-- C7: an ISO 15693 system-info result without IC reference whose block
count lies in the NTAG5-Boost capacity band (more than 100 blocks and more
than 400 total bytes) is classified as NTAG 5 Boost from memory size alone
by `identifySlixFromMemory`, and the detector returns that classification
rather than the ISO15693-unknown fallback (for an NXP or unreported UID
manufacturer, the inputs the memory-only path serves). -/
theorem detectIso15693_boost (uid : Option String) (icMfg uidRef : Option Nat)
    (sysInfo : Iso15693SystemInfo) (bc bs : Nat)
    (hRef : sysInfo.icReference = none)
    (hMfg : icMfg = some 0x04 ∨ icMfg = none)
    (hbc : sysInfo.blockCount = some bc) (hbs : sysInfo.blockSize = some bs)
    (hband : 100 < bc) (hcap : 400 < bc * bs) :
    identifySlixFromMemory sysInfo.blockCount sysInfo.blockSize =
      some ChipType.NTAG5_BOOST
    ∧ (detectIso15693WithSysInfo uid icMfg uidRef sysInfo).success = true
    ∧ (detectIso15693WithSysInfo uid icMfg uidRef sysInfo).chipType =
      some ChipType.NTAG5_BOOST := by
  have hbs0 : bs ≠ 0 := by
    rintro rfl
    simp at hcap
  have hbc0 : bc ≠ 0 := by omega
  have hmem : identifySlixFromMemory (some bc) (some bs) =
      some ChipType.NTAG5_BOOST := by
    simp only [identifySlixFromMemory, natOptTruthy, Option.getD_some]
    rw [if_neg (by simp [hbc0, hbs0])]
    rw [if_neg ?c1, if_neg ?c2, if_neg ?c3, if_neg ?c4, if_pos ?c5]
    case c1 =>
      simp only [not_or, not_le]
      exact ⟨lt_trans (by norm_num) hcap, by omega⟩
    case c2 =>
      simp only [not_or, not_le]
      exact ⟨lt_trans (by norm_num) hcap, by omega⟩
    case c3 =>
      simp only [not_or, not_le]
      exact ⟨lt_trans (by norm_num) hcap, by omega⟩
    case c4 =>
      simp only [not_or, not_le]
      exact ⟨hcap, by omega⟩
    case c5 => exact hcap.le
  have hmem' : identifySlixFromMemory sysInfo.blockCount sysInfo.blockSize =
      some ChipType.NTAG5_BOOST := by
    rw [hbc, hbs]
    exact hmem
  refine ⟨hmem', ?_, ?_⟩ <;>
    rcases hMfg with hM | hM <;> subst hM <;>
      simp [detectIso15693WithSysInfo, hRef, hmem']

/-- Witness for C7 at `boostSysInfo` with no UID-derived manufacturer. -/
theorem detectIso15693_boost_witness :
    identifySlixFromMemory boostSysInfo.blockCount boostSysInfo.blockSize =
      some ChipType.NTAG5_BOOST
    ∧ (detectIso15693WithSysInfo none none none boostSysInfo).success = true
    ∧ (detectIso15693WithSysInfo none none none boostSysInfo).chipType =
      some ChipType.NTAG5_BOOST :=
  detectIso15693_boost none none none boostSysInfo 128 4 rfl (Or.inr rfl)
    rfl rfl (by decide) (by decide)

/-- Projection helper: the chip type stored by `createTransponder`. -/
theorem createTransponder_type (p : Platform) (t : ChipType)
    (raw : RawTagData) (o : TransponderOptions) :
    (createTransponder p t raw o).type = t := rfl

/-- Projection helper: the confidence stored by `createTransponder`
defaults to Medium. -/
theorem createTransponder_confidence (p : Platform) (t : ChipType)
    (raw : RawTagData) (o : TransponderOptions) :
    (createTransponder p t raw o).confidence = o.confidence.getD Confidence.medium :=
  rfl

/-- Projection helper: the memory size stored by `createTransponder`. -/
theorem createTransponder_memorySize (p : Platform) (t : ChipType)
    (raw : RawTagData) (o : TransponderOptions) :
    (createTransponder p t raw o).memorySize =
      (o.memorySize <|> CHIP_MEMORY_SIZES t) := rfl

/-- C6: SAK 0x08 maps to MIFARE Classic 1K with 1024-byte capacity in the
Classic detector, and for a tag with SAK 0x08, no IsoDep technology and no
platform capacity hint the orchestrator returns that classification at High
confidence (whatever the other probe results are). -/
theorem detectChip_classic1k_sak08 (platform : Platform) (rawData : RawTagData)
    (env : ProbeEnv)
    (hsak : rawData.sak = some 0x08)
    (hIso : rawData.techTypes.any (fun t => strIncludes t "IsoDep") = false)
    (hHint : rawData.mifareClassicSize = none) :
    detectMifareClassic platform 0x08 =
      { success := true
        chipType := some ChipType.MIFARE_CLASSIC_1K
        memorySize := some 1024
        sectorCount := some 16
        blockCount := some 64
        note := if platform = Platform.ios
          then some "Sector operations require Android" else none }
    ∧ ∃ tr, detectChip platform rawData env =
        { success := true, transponder := some tr, error := none }
      ∧ tr.type = ChipType.MIFARE_CLASSIC_1K
      ∧ tr.memorySize = some 1024
      ∧ tr.confidence = Confidence.high := by
  constructor
  · cases platform <;> rfl
  · unfold detectChip detectChipE
    by_cases hmc : (rawData.techTypes.any fun t => strIncludes t "MifareClassic") = true
    · simp only [hmc, hIso, hsak, hHint]
      simp [natOptTruthy]
      exact ⟨rfl, rfl, rfl⟩
    · simp only [hmc, hIso, hsak, hHint]
      simp [isMifareClassicSak, ALL_CLASSIC_1K_SAKS, ALL_CLASSIC_4K_SAKS,
        detectMifareClassic, CHIP_MEMORY_SIZES]
      exact ⟨rfl, rfl, rfl⟩

/-- Helper: step 5 always terminates in a successful result. -/
theorem detectChipStep5_ok (p : Platform) (r : RawTagData) :
    ∃ tr, detectChipStep5 p r =
      { success := true, transponder := some tr, error := none } := by
  simp only [detectChipStep5]
  split
  · exact ⟨_, rfl⟩
  · exact ⟨_, rfl⟩

/-- Helper: step 4 terminates successfully when the ISO 15693 probe does
not throw (the sensor and Spark sub-probes may throw; their exceptions are
caught). -/
theorem detectChipStep4_ok (p : Platform) (r : RawTagData) (env : ProbeEnv)
    (h5 : ∃ v, env.iso15693Result = Except.ok v) :
    ∃ tr, detectChipStep4 p r env =
      Except.ok { success := true, transponder := some tr, error := none } := by
  obtain ⟨v, hv⟩ := h5
  simp only [detectChipStep4, hv]
  split
  · split
    · exact ⟨_, rfl⟩
    · exact ⟨_, rfl⟩
  · obtain ⟨tr, htr⟩ := detectChipStep5_ok p r
    exact ⟨tr, by rw [htr]⟩

/-- Helper: steps 3d/3e terminate successfully when the JavaCard fallback
probe does not throw. -/
theorem detectChipStep3d_ok (p : Platform) (r : RawTagData) (env : ProbeEnv)
    (h4 : ∃ v, env.jcFallback = Except.ok v) :
    ∃ tr, detectChipStep3d p r env =
      Except.ok { success := true, transponder := some tr, error := none } := by
  obtain ⟨v, hv⟩ := h4
  simp only [detectChipStep3d, hv]
  split
  · exact ⟨_, rfl⟩
  · split
    · exact ⟨_, rfl⟩
    · exact ⟨_, rfl⟩

/-- Helper: step 3 terminates successfully when none of the awaited probes
throws. -/
theorem detectChipStep3_ok (p : Platform) (r : RawTagData) (env : ProbeEnv)
    (h2 : ∃ v, env.desfireResult = Except.ok v)
    (h3 : ∃ v, env.jcResult = Except.ok v)
    (h4 : ∃ v, env.jcFallback = Except.ok v)
    (h5 : ∃ v, env.iso15693Result = Except.ok v) :
    ∃ tr, detectChipStep3 p r env =
      Except.ok { success := true, transponder := some tr, error := none } := by
  obtain ⟨v, hv⟩ := h2
  simp only [detectChipStep3, hv]
  split
  · split
    · exact ⟨_, rfl⟩
    · split
      · exact ⟨_, rfl⟩
      · split
        · obtain ⟨w, hw⟩ := h3
          simp only [hw]
          split
          · exact ⟨_, rfl⟩
          · split
            · exact ⟨_, rfl⟩
            · exact detectChipStep3d_ok p r env h4
        · exact detectChipStep3d_ok p r env h4
  · exact detectChipStep4_ok p r env h5

/-- Helper: step 2 terminates successfully when none of the awaited probes
throws. -/
theorem detectChipStep2_ok (p : Platform) (r : RawTagData) (env : ProbeEnv)
    (h1 : ∃ v, env.ntagResult = Except.ok v)
    (h2 : ∃ v, env.desfireResult = Except.ok v)
    (h3 : ∃ v, env.jcResult = Except.ok v)
    (h4 : ∃ v, env.jcFallback = Except.ok v)
    (h5 : ∃ v, env.iso15693Result = Except.ok v) :
    ∃ tr, detectChipStep2 p r env =
      Except.ok { success := true, transponder := some tr, error := none } := by
  obtain ⟨v, hv⟩ := h1
  simp only [detectChipStep2, hv]
  split
  · split
    · exact ⟨_, rfl⟩
    · split
      · split
        · exact ⟨_, rfl⟩
        · exact ⟨_, rfl⟩
      · exact detectChipStep3_ok p r env h2 h3 h4 h5
  · exact detectChipStep3_ok p r env h2 h3 h4 h5

/-- Helper: the whole waterfall body returns a successful result when none
of the awaited probes throws. -/
theorem detectChipE_ok (p : Platform) (r : RawTagData) (env : ProbeEnv)
    (h1 : ∃ v, env.ntagResult = Except.ok v)
    (h2 : ∃ v, env.desfireResult = Except.ok v)
    (h3 : ∃ v, env.jcResult = Except.ok v)
    (h4 : ∃ v, env.jcFallback = Except.ok v)
    (h5 : ∃ v, env.iso15693Result = Except.ok v) :
    ∃ tr, detectChipE p r env =
      Except.ok { success := true, transponder := some tr, error := none } := by
  simp only [detectChipE]
  split
  · exact ⟨_, rfl⟩
  · split
    · split
      · exact ⟨_, rfl⟩
      · exact detectChipStep2_ok p r env h1 h2 h3 h4 h5
    · exact detectChipStep2_ok p r env h1 h2 h3 h4 h5

/-- C4: for every raw tag reading, if none of the probes the orchestrator
awaits without an inner catch (NTAG, DESFire, the two JavaCard probes, the
ISO 15693 probe) throws, `detectChip` terminates with `success = true` and
a transponder, whatever the remaining probe outcomes are — a probe that
merely fails, any outcome of the best-effort sub-probes and any value of
the pure pattern-matching helpers never produce the failure result; only an
exception escaping a probe can. -/
theorem detectChip_no_probe_throw (platform : Platform) (rawData : RawTagData)
    (env : ProbeEnv)
    (h1 : ∃ v, env.ntagResult = Except.ok v)
    (h2 : ∃ v, env.desfireResult = Except.ok v)
    (h3 : ∃ v, env.jcResult = Except.ok v)
    (h4 : ∃ v, env.jcFallback = Except.ok v)
    (h5 : ∃ v, env.iso15693Result = Except.ok v) :
    ∃ tr, detectChip platform rawData env =
      { success := true, transponder := some tr, error := none } := by
  obtain ⟨tr, htr⟩ := detectChipE_ok platform rawData env h1 h2 h3 h4 h5
  refine ⟨tr, ?_⟩
  unfold detectChip
  rw [htr]

/-- Witness for C4 at `sak08Reading` with all probes returning without
throwing. -/
theorem detectChip_no_probe_throw_witness :
    (detectChip Platform.android sak08Reading allOkEnv).success = true
    ∧ (detectChip Platform.android sak08Reading allOkEnv).transponder.isSome = true
    ∧ (detectChip Platform.android sak08Reading allOkEnv).error = none := by
  obtain ⟨tr, htr⟩ := detectChip_no_probe_throw Platform.android sak08Reading
    allOkEnv ⟨_, rfl⟩ ⟨_, rfl⟩ ⟨_, rfl⟩ ⟨_, rfl⟩ ⟨_, rfl⟩
  rw [htr]
  exact ⟨rfl, rfl, rfl⟩

/-- Witness for C6 at `sak08Reading` on Android with all probes returning
without throwing. -/
theorem detectChip_classic1k_sak08_witness :
    detectMifareClassic Platform.android 0x08 =
      { success := true
        chipType := some ChipType.MIFARE_CLASSIC_1K
        memorySize := some 1024
        sectorCount := some 16
        blockCount := some 64
        note := none }
    ∧ ((detectChip Platform.android sak08Reading allOkEnv).transponder.map
        (fun t => t.type)) = some ChipType.MIFARE_CLASSIC_1K
    ∧ ((detectChip Platform.android sak08Reading allOkEnv).transponder.map
        (fun t => t.memorySize)) = some (some 1024)
    ∧ ((detectChip Platform.android sak08Reading allOkEnv).transponder.map
        (fun t => t.confidence)) = some Confidence.high := by
  obtain ⟨hdm, tr, htr, hty, hmem, hconf⟩ := detectChip_classic1k_sak08
    Platform.android sak08Reading allOkEnv rfl (by decide) rfl
  refine ⟨hdm, ?_, ?_, ?_⟩ <;> rw [htr] <;> simp [hty, hmem, hconf]

/-- C5: `matchChipToProducts` recommends conversion exactly when there is
no exact match and no clone target, or the chip is not cloneable per the
static table; the cloneability verdict and note are copied from that table.
In particular the cloneable, exact-match-only NTAG216 yields non-empty
exact matches, no clone target outside the exact matches and no conversion
recommendation, while the non-cloneable, zero-match unknown ISO 14443-A
chip yields empty lists and a conversion recommendation. -/
theorem matchChipToProducts_conversion (chip : Transponder) :
    ((matchChipToProducts chip).conversionRecommended = true ↔
      ((matchChipToProducts chip).exactMatches = []
        ∧ (matchChipToProducts chip).cloneTargets = [])
      ∨ (CHIP_CLONEABILITY chip.type).cloneable = false)
    ∧ (matchChipToProducts chip).isCloneable = (CHIP_CLONEABILITY chip.type).cloneable
    ∧ (matchChipToProducts chip).cloneabilityNote = (CHIP_CLONEABILITY chip.type).note
    ∧ (CHIP_CLONEABILITY ChipType.NTAG216).cloneable = true
    ∧ (matchChipToProducts ntag216Transponder).exactMatches ≠ []
    ∧ (matchChipToProducts ntag216Transponder).cloneTargets.all
        (fun p => (matchChipToProducts ntag216Transponder).exactMatches.contains p)
        = true
    ∧ (matchChipToProducts ntag216Transponder).conversionRecommended = false
    ∧ (CHIP_CLONEABILITY ChipType.ISO14443A_UNKNOWN).cloneable = false
    ∧ chipProducts ChipType.ISO14443A_UNKNOWN = []
    ∧ (matchChipToProducts unknownIso14443aTransponder).exactMatches = []
    ∧ (matchChipToProducts unknownIso14443aTransponder).cloneTargets = []
    ∧ (matchChipToProducts unknownIso14443aTransponder).conversionRecommended
        = true := by
  refine ⟨?_, rfl, rfl, by decide, by decide, by decide, by decide, by decide,
    by decide, by decide, by decide, by decide⟩
  simp only [matchChipToProducts]
  simp [List.length_eq_zero, Bool.or_eq_true, Bool.not_eq_true']

/-- C9: every family match is disjoint by product id from the directly
mapped products — hence from both the exact matches and the clone targets,
and also from direct-mapped products that ended up in neither list. -/
theorem familyMatches_disjoint (chip : Transponder) (p : Product)
    (hp : p ∈ (matchChipToProducts chip).familyMatches) :
    (∀ q ∈ chipProducts chip.type, p.id ≠ q.id)
    ∧ (∀ q ∈ (matchChipToProducts chip).exactMatches, p.id ≠ q.id)
    ∧ (∀ q ∈ (matchChipToProducts chip).cloneTargets, p.id ≠ q.id) := by
  have hfam : (matchChipToProducts chip).familyMatches =
      findFamilyMatches (getChipFamily chip.type) (chipProducts chip.type) := rfl
  rw [hfam] at hp
  simp only [findFamilyMatches, List.mem_filter, Bool.and_eq_true,
    Bool.not_eq_true'] at hp
  obtain ⟨-, hnotin, -⟩ := hp
  have hdirect : ∀ q ∈ chipProducts chip.type, p.id ≠ q.id := by
    intro q hq heq
    have hmem : p.id ∈ (chipProducts chip.type).map (fun r => r.id) :=
      List.mem_map.mpr ⟨q, hq, heq.symm⟩
    have : ((chipProducts chip.type).map (fun r => r.id)).contains p.id = true := by
      exact List.elem_eq_true_of_mem hmem
    rw [this] at hnotin
    exact Bool.noConfusion hnotin
  have hexact : (matchChipToProducts chip).exactMatches =
      (chipProducts chip.type).filter (fun r => r.exactMatch) := rfl
  refine ⟨hdirect, ?_, ?_⟩
  · intro q hq
    rw [hexact] at hq
    exact hdirect q (List.mem_filter.mp hq).1
  · intro q hq
    exact hdirect q (List.mem_filter.mp hq).1

/-- Witness for C9: for the NTAG213 transponder, the first family match
(the Ultralight-compatible dUG4T) has an id different from the first exact
match (the xNT). -/
theorem familyMatches_disjoint_witness :
    ((matchChipToProducts ntag213Transponder).familyMatches.getD 0 emptyProduct).id
    ≠ ((matchChipToProducts ntag213Transponder).exactMatches.getD 0 emptyProduct).id :=
  (familyMatches_disjoint ntag213Transponder
      ((matchChipToProducts ntag213Transponder).familyMatches.getD 0 emptyProduct)
      (by decide)).2.1
    ((matchChipToProducts ntag213Transponder).exactMatches.getD 0 emptyProduct)
    (by decide)

end NfcId

